import Mathlib

/-!
Join-verification bot (`bot.js`): embedding and properties

The development embeds the screening functions, the captcha generator, the
pending-user registry and the three event handlers of `bot.js` as Lean
functions, and then proves properties of them.

Conventions of the embedding
* A JavaScript string is a list of characters (`Str`).
* JavaScript numbers that hold integers are `Nat` or `Int`; they are exact in
  the source as long as their magnitude stays below `2 ^ 53`, which is the case
  for every operand, answer, identifier and timestamp used here.  The one place
  where the source computes a fraction, `isAccountOldEnough`, is embedded with
  binary64 rounding made explicit (`roundQuot`).
* `Math.random()` and `Date.now()` are inputs: a draw `Math.floor(Math.random() * n)`
  is a value of `Fin n`, the clock is a natural number of milliseconds.
* A call to the Telegram gateway either resolves or rejects; the outcome of the
  `k`-th call of a handler run is given by an oracle `Gateway`.
* `console.log` and `console.error` have no effect on the registry or the
  gateway and are left out.
-/

namespace Bot

/-! ## Strings -/

/-- A JavaScript string. -/
abbrev Str := List Char

/-- The method `String.prototype.toLowerCase`.  The embedding folds the letters
`A`–`Z`; on other characters JavaScript may differ, but never in a way that
creates or destroys an occurrence of one of the keywords below, which are made
of the letters `a`–`z` only. -/
def toLowerCase (s : Str) : Str := s.map Char.toLower

/-- The method `String.prototype.includes`: `k` occurs in `s` as a contiguous block. -/
def includes (s k : Str) : Bool := s.tails.any (fun t => k.isPrefixOf t)

/-- The method `String.prototype.startsWith`. -/
def startsWith (s p : Str) : Bool := p.isPrefixOf s

/-- The call `s.replace(p, '')` with a string pattern: the first occurrence of
`p` in `s` is removed, and `s` is returned as it is when `p` does not occur. -/
def removeFirst (p : Str) : Str → Str
  | [] => []
  | c :: s => if p.isPrefixOf (c :: s) then (c :: s).drop p.length else c :: removeFirst p s

/-! ## Screening (`bot.js` lines 13–47 and 105–112) -/

/-- A member snapshot as delivered by the platform. -/
structure User where
  id : Nat
  is_bot : Bool
  first_name : Option Str
  last_name : Option Str
  username : Option Str
deriving DecidableEq, Repr

/-- The denylist `SUSPICIOUS_KEYWORDS`. -/
def SUSPICIOUS_KEYWORDS : List Str :=
  ["bot".toList, "police".toList, "telegram".toList, "remove".toList, "deleted".toList]

/-- The character class `[a-zA-Z0-9_]`. -/
def isWordChar (c : Char) : Bool :=
  ('a' ≤ c ∧ c ≤ 'z') ∨ ('A' ≤ c ∧ c ≤ 'Z') ∨ ('0' ≤ c ∧ c ≤ '9') ∨ c = '_'

/-- The test `/^[a-zA-Z0-9_]{5,32}$/.test(s)`. -/
def usernamePattern (s : Str) : Bool :=
  decide (5 ≤ s.length) && decide (s.length ≤ 32) && s.all isWordChar

/-- The function `isValidUsername`; `none` is a missing handle, and `!username`
also holds for the empty string. -/
def isValidUsername (username : Option Str) : Bool :=
  match username with
  | none => false
  | some s =>
    if s.isEmpty then false
    else if SUSPICIOUS_KEYWORDS.any (fun keyword => includes (toLowerCase s) keyword) then false
    else usernamePattern s

/-- The text `profileText` built by `hasCleanProfile`. -/
def profileText (user : User) : Str :=
  user.first_name.getD [] ++ " ".toList ++ user.last_name.getD [] ++ " ".toList
    ++ user.username.getD []

/-- The function `hasCleanProfile`. -/
def hasCleanProfile (user : User) : Bool :=
  !(SUSPICIOUS_KEYWORDS.any (fun keyword => includes (toLowerCase (profileText user)) keyword))

/-- A non-negative binary64 value `m * 2 ^ e`. -/
structure Dbl where
  m : Nat
  e : Int
deriving DecidableEq, Repr

/-- The rational number a `Dbl` stands for. -/
def Dbl.toRat (x : Dbl) : ℚ := (x.m : ℚ) * (2 : ℚ) ^ x.e

/-- The position of the leading bit of `n`, with fuel. -/
def floorLog2 : Nat → Nat → Nat
  | 0, _ => 0
  | fuel + 1, n => if n < 2 then 0 else floorLog2 fuel (n / 2) + 1

/-- The exponent of the leading bit of `p / q`, for positive `p` and `q`: the
integer `E` with `2 ^ E ≤ p / q < 2 ^ (E + 1)`. -/
def quotExponent (p q : Nat) : Int :=
  let E0 : Int := (floorLog2 p p : Int) - (floorLog2 q q : Int)
  if q * 2 ^ E0.toNat ≤ p * 2 ^ (-E0).toNat then E0 else E0 - 1

/-- The binary64 value nearest to `p / q`, ties to even (53 significant bits;
the exponent range is not limited, which is exact for every magnitude between
`2 ^ (-1022)` and `2 ^ 1023`). -/
def roundQuot (p q : Nat) : Dbl :=
  if p = 0 then ⟨0, 0⟩ else
  let s : Int := quotExponent p q - 52
  let N := p * 2 ^ (-s).toNat
  let D := q * 2 ^ s.toNat
  let Q := N / D
  let R := N % D
  if D < 2 * R ∨ (2 * R = D ∧ Q % 2 = 1) then ⟨Q + 1, s⟩ else ⟨Q, s⟩

/-- The binary64 product of `x` and the integer `k`. -/
def Dbl.mulNat (x : Dbl) (k : Nat) : Dbl :=
  roundQuot (x.m * k * 2 ^ x.e.toNat) (2 ^ (-x.e).toNat)

/-- The comparison `x < t` of a binary64 value with an integer. -/
def Dbl.ltInt (x : Dbl) (t : Int) : Bool :=
  decide ((x.m : Int) * 2 ^ x.e.toNat < t * 2 ^ (-x.e).toNat)

/-- The value `estimatedCreationTime = (userId / 1000000) * 86400 * 1000`,
evaluated left to right in binary64 as the source does. -/
def estimatedCreationTime (userId : Nat) : Dbl :=
  ((roundQuot userId 1000000).mulNat 86400).mulNat 1000

/-- The function `isAccountOldEnough`, with `Date.now()` passed as `now`. -/
def isAccountOldEnough (now : Nat) (userId : Nat) : Bool :=
  let thirtyDaysAgo : Int := (now : Int) - (30 * 24 * 60 * 60 * 1000)
  (estimatedCreationTime userId).ltInt thirtyDaysAgo

/-- The function `passesBasicValidation`. -/
def passesBasicValidation (now : Nat) (user : User) : Bool :=
  let validUsername := isValidUsername user.username
  let cleanProfile := hasCleanProfile user
  let oldEnough := isAccountOldEnough now user.id
  validUsername && cleanProfile && oldEnough

/-- The handle is present and matches `/^[a-zA-Z0-9_]{5,32}$/`. -/
def handleMatchesPattern (username : Option Str) : Bool :=
  match username with
  | none => false
  | some s => usernamePattern s

/-! ## Numbers as text -/

/-- The decimal digit character of `d`, for `d < 10`. -/
def digitChar (d : Nat) : Char := Char.ofNat (48 + d)

/-- The decimal digits of `n`, most significant first, put in front of `acc`. -/
def natDigits : Nat → Nat → Str → Str
  | 0, _, acc => acc
  | fuel + 1, n, acc =>
    if n < 10 then digitChar n :: acc
    else natDigits fuel (n / 10) (digitChar (n % 10) :: acc)

/-- The decimal rendering of a natural number. -/
def natToString (n : Nat) : Str := natDigits (n + 1) n []

/-- The method `Number.prototype.toString` on an integer, which is also what a
template literal inserts for it. -/
def numberToString (z : Int) : Str :=
  match z with
  | Int.ofNat n => natToString n
  | Int.negSucc n => '-' :: natToString (n + 1)

/-- The white space that `parseInt` skips at the start of its argument. -/
def isWhiteSpace (c : Char) : Bool :=
  c.toNat ∈ [9, 10, 11, 12, 13, 32, 160, 5760, 8192, 8193, 8194, 8195, 8196, 8197,
    8198, 8199, 8200, 8201, 8202, 8232, 8233, 8239, 8287, 12288, 65279]

/-- The value of a character as a digit, letters counting from ten. -/
def digitValue (c : Char) : Option Nat :=
  if '0' ≤ c ∧ c ≤ '9' then some (c.toNat - 48)
  else if 'a' ≤ c ∧ c ≤ 'z' then some (c.toNat - 87)
  else if 'A' ≤ c ∧ c ≤ 'Z' then some (c.toNat - 55)
  else none

/-- The character is a digit in the given radix. -/
def isRadixDigit (radix : Nat) (c : Char) : Bool :=
  match digitValue c with
  | some d => decide (d < radix)
  | none => false

/-- The value of a run of digits in the given radix. -/
def digitsValue (radix : Nat) (s : Str) : Nat :=
  s.foldl (fun a c => a * radix + (digitValue c).getD 0) 0

/-- The sign that `parseInt` reads, and the text after it. -/
def splitSign (s : Str) : Int × Str :=
  match s with
  | c :: r => if c = '-' then (-1, r) else if c = '+' then (1, r) else (1, s)
  | [] => (1, s)

/-- The radix that `parseInt` chooses without a radix argument, and the text
after the `0x` mark. -/
def splitRadix (s : Str) : Nat × Str :=
  match s with
  | c :: d :: r => if c = '0' ∧ (d = 'x' ∨ d = 'X') then (16, r) else (10, s)
  | _ => (10, s)

/-- The function `parseInt` with one argument; `none` is `NaN`.  The value is the
integer that the digits denote, which is what JavaScript returns for every
numeral below `2 ^ 53`. -/
def parseInt (s : Str) : Option Int :=
  let (sign, s2) := splitSign (s.dropWhile isWhiteSpace)
  let (radix, s3) := splitRadix s2
  let Z := s3.takeWhile (isRadixDigit radix)
  if Z.isEmpty then none else some (sign * (digitsValue radix Z : Int))

/-! ## Captcha (`bot.js` lines 49–103) -/

/-- The entries of the array `operators`. -/
inductive Operator where
  | plus
  | minus
  | times
deriving DecidableEq, Repr

/-- The array `operators`. -/
def operators : List Operator := [Operator.plus, Operator.minus, Operator.times]

/-- The object returned by `generateCaptcha`. -/
structure Captcha where
  question : Str
  answer : Int
deriving DecidableEq, Repr

/-- The operands `num1` and `num2`: `Math.floor(Math.random() * 10) + 1`. -/
def operand (r : Fin 10) : Int := (r.val : Int) + 1

/-- The function `generateCaptcha`; `r1`, `r2` and `r3` are its three draws. -/
def generateCaptcha (r1 r2 : Fin 10) (r3 : Fin 3) : Captcha :=
  let num1 := operand r1
  let num2 := operand r2
  let operator := operators.get r3
  match operator with
  | Operator.plus =>
    { answer := num1 + num2,
      question := numberToString num1 ++ " + ".toList ++ numberToString num2 }
  | Operator.minus =>
    { answer := |num1 - num2|,
      question := numberToString (max num1 num2) ++ " - ".toList
        ++ numberToString (min num1 num2) }
  | Operator.times =>
    { answer := num1 * num2,
      question := numberToString num1 ++ " × ".toList ++ numberToString num2 }

/-- The arithmetic value of a question of the shape `a op b`, read back from its text. -/
def evalQuestion (q : Str) : Option Int :=
  match q.splitOn ' ' with
  | [a, op, b] =>
    match parseInt a, parseInt b with
    | some x, some y =>
      if op = ['+'] then some (x + y)
      else if op = ['-'] then some (x - y)
      else if op = ['×'] then some (x * y)
      else none
    | _, _ => none
  | _ => none

/-- An inline button. -/
structure Button where
  text : Str
  callback_data : Str
deriving DecidableEq, Repr

/-- The loop that fills `wrongAnswers`.  Each pass takes one draw
`Math.floor(Math.random() * 20)`; the result is `none` when the draws run out
while the loop is still going, and otherwise the three decoys together with the
draws that were not used. -/
def wrongAnswersLoop (correctAnswer : Int) :
    List (Fin 20) → List Int → Option (List Int × List (Fin 20))
  | [], wrongAnswers =>
    if wrongAnswers.length < 3 then none else some (wrongAnswers, [])
  | d :: rest, wrongAnswers =>
    if wrongAnswers.length < 3 then
      let wrong := correctAnswer + (d.val : Int) - 10
      if wrong ≠ correctAnswer ∧ wrong > 0 ∧ ¬ wrongAnswers.contains wrong then
        wrongAnswersLoop correctAnswer rest (wrongAnswers ++ [wrong])
      else
        wrongAnswersLoop correctAnswer rest wrongAnswers
    else some (wrongAnswers, d :: rest)

/-- One insertion of the sort below: `x` goes in front of the first element for
which the comparator, asked for the `k`-th time, answers "before". -/
def insertWith (cmps : Nat → Bool) (x : Int) : List Int → Nat → List Int × Nat
  | [], k => ([x], k)
  | y :: ys, k =>
    if cmps k then (x :: y :: ys, k + 1)
    else
      let r := insertWith cmps x ys (k + 1)
      (y :: r.1, r.2)

/-- The call `allAnswers.sort(() => Math.random() - 0.5)`: a sort whose
comparator ignores its arguments, `cmps k` telling whether its `k`-th answer is
negative.  Engines differ in the comparisons they ask for; all of them return a
rearrangement of the array, and nothing else about the order is used below. -/
def sortWith (cmps : Nat → Bool) : List Int → Nat → List Int × Nat
  | [], k => ([], k)
  | x :: xs, k =>
    let r := sortWith cmps xs k
    insertWith cmps x r.1 r.2

/-- The array `shuffled` of `createCaptchaKeyboard`. -/
def shuffledAnswers (correctAnswer : Int) (draws : List (Fin 20)) (cmps : Nat → Bool) :
    Option (List Int) :=
  match wrongAnswersLoop correctAnswer draws [] with
  | none => none
  | some (wrongAnswers, _) =>
    let allAnswers := correctAnswer :: wrongAnswers
    some (sortWith cmps allAnswers 0).1

/-- The button made for one answer. -/
def answerButton (answer : Int) : Button :=
  { text := numberToString answer,
    callback_data := "captcha_".toList ++ numberToString answer }

/-- The function `createCaptchaKeyboard`; the result is the `inline_keyboard`
of the returned `reply_markup`, one row per answer. -/
def createCaptchaKeyboard (correctAnswer : Int) (draws : List (Fin 20)) (cmps : Nat → Bool) :
    Option (List (List Button)) :=
  match shuffledAnswers correctAnswer draws cmps with
  | none => none
  | some shuffled => some (shuffled.map (fun answer => [answerButton answer]))

/-- The property of the decoys collected so far that the loop keeps true: they are
pairwise distinct, differ from the correct answer, are positive and lie in the
range of the draws. -/
def DecoysOk (c : Int) (ws : List Int) : Prop :=
  ws.Nodup ∧ ∀ w ∈ ws, w ≠ c ∧ 0 < w ∧ c - 10 ≤ w ∧ w ≤ c + 9

/-! ## Gateway and registry -/

/-- The permission object passed to `restrictChatMember`. -/
structure Permissions where
  can_send_messages : Bool
  can_send_media_messages : Bool
  can_send_polls : Bool
  can_send_other_messages : Bool
  can_add_web_page_previews : Bool
  can_change_info : Bool
  can_invite_users : Bool
  can_pin_messages : Bool
deriving DecidableEq, Repr

/-- The permissions set on arrival: everything denied. -/
def mutedPermissions : Permissions :=
  { can_send_messages := false, can_send_media_messages := false, can_send_polls := false,
    can_send_other_messages := false, can_add_web_page_previews := false,
    can_change_info := false, can_invite_users := false, can_pin_messages := false }

/-- The permissions set after a correct answer: sending is allowed again. -/
def approvedPermissions : Permissions :=
  { can_send_messages := true, can_send_media_messages := true, can_send_polls := true,
    can_send_other_messages := true, can_add_web_page_previews := true,
    can_change_info := false, can_invite_users := false, can_pin_messages := false }

/-- A call to the gateway `bot`. -/
inductive Call where
  | restrictChatMember (chatId : Int) (userId : Nat) (permissions : Permissions)
  | kickChatMember (chatId : Int) (userId : Nat)
  | unbanChatMember (chatId : Int) (userId : Nat)
  | deleteMessage (chatId : Int) (messageId : Nat)
  | sendMessage (chatId : Int) (text : Str) (keyboard : Option (List (List Button)))
  | answerCallbackQuery (queryId : Str) (text : Str)
deriving DecidableEq, Repr

/-- The outcome of the `k`-th gateway call of a handler run: `none` when the
call rejects, `some v` when it resolves; for `sendMessage`, `v` is the
`message_id` of the message sent. -/
abbrev Gateway := Nat → Option Nat

/-- A run of `await`ed calls inside one `try` block, the first of them being
call number `k`: the calls are issued in order up to and including the first
one that rejects.  The result is the calls issued and whether all resolved. -/
def awaitAll (gw : Gateway) : Nat → List Call → List Call × Bool
  | _, [] => ([], true)
  | k, c :: cs =>
    match gw k with
    | none => ([c], false)
    | some _ =>
      let r := awaitAll gw (k + 1) cs
      (c :: r.1, r.2)

/-- The value stored in `pendingUsers` for a member. -/
structure Pending where
  correctAnswer : Int
  messageId : Nat
  joinTime : Nat
  username : Option Str
deriving DecidableEq, Repr

/-- The map `pendingUsers`, as its entries in insertion order. -/
abbrev PendingUsers := List (Nat × Pending)

/-- The method `Map.prototype.get`; `none` is `undefined`. -/
def mapGet : PendingUsers → Nat → Option Pending
  | [], _ => none
  | (k, v) :: m, userId => if k = userId then some v else mapGet m userId

/-- The method `Map.prototype.has`. -/
def mapHas (m : PendingUsers) (userId : Nat) : Bool := (mapGet m userId).isSome

/-- The method `Map.prototype.set`: the value of an existing key is replaced where
it stands, a new key is added at the end. -/
def mapSet : PendingUsers → Nat → Pending → PendingUsers
  | [], userId, v => [(userId, v)]
  | (k, w) :: m, userId, v =>
    if k = userId then (k, v) :: m else (k, w) :: mapSet m userId v

/-- The method `Map.prototype.delete`. -/
def mapDelete (m : PendingUsers) (userId : Nat) : PendingUsers :=
  m.filter (fun e => decide (e.1 ≠ userId))

/-- What a template literal inserts for a name that may be missing. -/
def templateText (s : Option Str) : Str := s.getD "undefined".toList

/-! ## Response handler (`bot.js` lines 191–261) -/

/-- The fields of a callback query that the handler reads: `id`,
`message.chat.id`, `from` and `data`. -/
structure CallbackQuery where
  id : Str
  chatId : Int
  sender : User
  data : Str
deriving DecidableEq, Repr

/-- The confirmation sent after a correct answer. -/
def welcomeText (q : CallbackQuery) : Str :=
  "✅ Welcome ".toList ++ templateText q.sender.first_name
    ++ "! You have been verified and can now participate in the channel.".toList

/-- The handler `bot.on('callback_query', ...)`: the registry after the run and
the gateway calls issued, in order. -/
def onCallbackQuery (CHANNEL_ID : Str) (gw : Gateway) (pendingUsers : PendingUsers)
    (q : CallbackQuery) : PendingUsers × List Call :=
  let chatId := q.chatId
  let userId := q.sender.id
  let data := q.data
  if numberToString chatId ≠ CHANNEL_ID then (pendingUsers, [])
  else if startsWith data "captcha_".toList then
    let answer := parseInt (removeFirst "captcha_".toList data)
    match mapGet pendingUsers userId with
    | none =>
      (pendingUsers, [Call.answerCallbackQuery q.id "Verification expired!".toList])
    | some pending =>
      if answer = some pending.correctAnswer then
        let r := awaitAll gw 0
          [Call.restrictChatMember chatId userId approvedPermissions,
           Call.deleteMessage chatId pending.messageId,
           Call.sendMessage chatId (welcomeText q) none]
        if r.2 then
          let ack := Call.answerCallbackQuery q.id "✅ Verified successfully!".toList
          match gw 3 with
          | some _ => (mapDelete pendingUsers userId, r.1 ++ [ack])
          | none =>
            (mapDelete pendingUsers userId, r.1 ++ [ack,
              Call.answerCallbackQuery q.id "Error processing verification!".toList])
        else
          (pendingUsers, r.1 ++
            [Call.answerCallbackQuery q.id "Error processing verification!".toList])
      else
        let r := awaitAll gw 0
          [Call.kickChatMember chatId userId,
           Call.unbanChatMember chatId userId,
           Call.deleteMessage chatId pending.messageId]
        if r.2 then
          let ack := Call.answerCallbackQuery q.id
            "❌ Wrong answer! You have been removed.".toList
          match gw 3 with
          | some _ => (mapDelete pendingUsers userId, r.1 ++ [ack])
          | none =>
            (mapDelete pendingUsers userId, r.1 ++ [ack,
              Call.answerCallbackQuery q.id "Error processing verification!".toList])
        else
          (pendingUsers, r.1 ++
            [Call.answerCallbackQuery q.id "Error processing verification!".toList])
  else (pendingUsers, [])

/-! ## Arrival handler and deadline (`bot.js` lines 114–189) -/

/-- What the callback passed to `setTimeout` keeps from its surroundings: the
chat, the member and the `message_id` of the challenge. -/
structure Timer where
  chatId : Int
  user : User
  messageId : Nat
  delay : Nat
deriving DecidableEq, Repr

/-- The inputs of the loop body for one member, other than the gateway: the two
readings of `Date.now()` (in `isAccountOldEnough` and at `pendingUsers.set`) and
the random draws of `generateCaptcha` and `createCaptchaKeyboard`. -/
structure Inputs where
  nowCheck : Nat
  nowStore : Nat
  r1 : Fin 10
  r2 : Fin 10
  r3 : Fin 3
  decoys : List (Fin 20)
  cmps : Nat → Bool

/-- The state threaded through the loop over `msg.new_chat_members`: the
registry, the gateway calls issued so far and the deadlines armed so far. -/
structure Arrival where
  pendingUsers : PendingUsers
  calls : List Call
  timers : List Timer
deriving DecidableEq, Repr

/-- The challenge text sent to a member. -/
def captchaText (user : User) (captcha : Captcha) : Str :=
  "🔐 Welcome ".toList ++ templateText user.first_name
    ++ "!\n\nTo join this channel, please solve this simple math problem:\n\n**".toList
    ++ captcha.question ++ " = ?**\n\nClick the correct answer below:".toList

/-- The body of the loop `for (const user of msg.new_chat_members)`.  The number
of the next gateway call is the number of calls issued so far.  The result is
`none` when the loop of `createCaptchaKeyboard` does not come to an end. -/
def handleNewMember (gw : Gateway) (chatId : Int) (inp : Inputs) (st : Arrival)
    (user : User) : Option Arrival :=
  if user.is_bot then some st
  else if !passesBasicValidation inp.nowCheck user then
    let r := awaitAll gw st.calls.length
      [Call.kickChatMember chatId user.id, Call.unbanChatMember chatId user.id]
    some { st with calls := st.calls ++ r.1 }
  else
    let restrict := Call.restrictChatMember chatId user.id mutedPermissions
    match gw st.calls.length with
    | none => some { st with calls := st.calls ++ [restrict] }
    | some _ =>
      let captcha := generateCaptcha inp.r1 inp.r2 inp.r3
      match createCaptchaKeyboard captcha.answer inp.decoys inp.cmps with
      | none => none
      | some keyboard =>
        let send := Call.sendMessage chatId (captchaText user captcha) (some keyboard)
        match gw (st.calls.length + 1) with
        | none => some { st with calls := st.calls ++ [restrict, send] }
        | some messageId =>
          some
            { pendingUsers := mapSet st.pendingUsers user.id
                { correctAnswer := captcha.answer,
                  messageId := messageId,
                  joinTime := inp.nowStore,
                  username := if user.username.getD [] = [] then user.first_name
                    else user.username },
              calls := st.calls ++ [restrict, send],
              timers := st.timers ++
                [{ chatId := chatId, user := user, messageId := messageId, delay := 120000 }] }

/-- The loop over `msg.new_chat_members`; `inputs i` are the inputs for the
`i`-th member of the list. -/
def handleNewMembers (gw : Gateway) (chatId : Int) (inputs : Nat → Inputs) :
    Nat → Arrival → List User → Option Arrival
  | _, st, [] => some st
  | i, st, user :: users =>
    match handleNewMember gw chatId (inputs i) st user with
    | none => none
    | some st1 => handleNewMembers gw chatId inputs (i + 1) st1 users

/-- The fields of a service message that the arrival handler reads. -/
structure JoinMessage where
  chatId : Int
  new_chat_members : List User
deriving DecidableEq, Repr

/-- The handler `bot.on('new_chat_members', ...)`. -/
def onNewChatMembers (CHANNEL_ID : Str) (gw : Gateway) (inputs : Nat → Inputs)
    (pendingUsers : PendingUsers) (msg : JoinMessage) : Option Arrival :=
  let chatId := msg.chatId
  if numberToString chatId ≠ CHANNEL_ID then
    some { pendingUsers := pendingUsers, calls := [], timers := [] }
  else
    handleNewMembers gw chatId inputs 0
      { pendingUsers := pendingUsers, calls := [], timers := [] } msg.new_chat_members

/-- The callback passed to `setTimeout`, run when the deadline `t` fires. -/
def onDeadline (gw : Gateway) (pendingUsers : PendingUsers) (t : Timer) :
    PendingUsers × List Call :=
  if mapHas pendingUsers t.user.id then
    let r := awaitAll gw 0
      [Call.kickChatMember t.chatId t.user.id,
       Call.unbanChatMember t.chatId t.user.id,
       Call.deleteMessage t.chatId t.messageId]
    if r.2 then (mapDelete pendingUsers t.user.id, r.1) else (pendingUsers, r.1)
  else (pendingUsers, [])

/-! ## Sweeper (`bot.js` lines 263–271) -/

/-- The loop `for (const [userId, data] of pendingUsers.entries())` of the
sweeper: the entries are visited in order, and the key of an entry that is more
than 120000 ms old is deleted from the map. -/
def sweepLoop (now : Nat) : List (Nat × Pending) → PendingUsers → PendingUsers
  | [], m => m
  | (userId, data) :: rest, m =>
    if (now : Int) - (data.joinTime : Int) > 120000 then
      sweepLoop now rest (mapDelete m userId)
    else sweepLoop now rest m

/-- The callback passed to `setInterval`, run at clock value `now`. -/
def sweep (now : Nat) (pendingUsers : PendingUsers) : PendingUsers :=
  sweepLoop now pendingUsers pendingUsers

/-- The sweeper as a handler run: the registry after the run and the gateway
calls issued; the callback contains no call to `bot`. -/
def onSweep (now : Nat) (pendingUsers : PendingUsers) : PendingUsers × List Call :=
  (sweep now pendingUsers, [])

/-- A `Map` holds one entry for a key: the keys of the list of entries are
pairwise distinct. -/
def WellFormed (m : PendingUsers) : Prop := (m.map Prod.fst).Nodup

instance (m : PendingUsers) : Decidable (WellFormed m) := by
  unfold WellFormed
  infer_instance

/-- The entry is more than 120000 ms old at clock value `now`. -/
def expired (now : Nat) (data : Pending) : Bool :=
  decide ((now : Int) - (data.joinTime : Int) > 120000)

/-! ## The two branches of the response handler -/

/-- The branch of `onCallbackQuery` for a correct answer (`bot.js` lines 210–242). -/
def correctAnswerBranch (gw : Gateway) (pendingUsers : PendingUsers) (q : CallbackQuery)
    (pending : Pending) : PendingUsers × List Call :=
  let r := awaitAll gw 0
    [Call.restrictChatMember q.chatId q.sender.id approvedPermissions,
     Call.deleteMessage q.chatId pending.messageId,
     Call.sendMessage q.chatId (welcomeText q) none]
  if r.2 then
    let ack := Call.answerCallbackQuery q.id "✅ Verified successfully!".toList
    match gw 3 with
    | some _ => (mapDelete pendingUsers q.sender.id, r.1 ++ [ack])
    | none =>
      (mapDelete pendingUsers q.sender.id, r.1 ++ [ack,
        Call.answerCallbackQuery q.id "Error processing verification!".toList])
  else
    (pendingUsers, r.1 ++
      [Call.answerCallbackQuery q.id "Error processing verification!".toList])

/-- The branch of `onCallbackQuery` for a wrong answer (`bot.js` lines 244–259). -/
def wrongAnswerBranch (gw : Gateway) (pendingUsers : PendingUsers) (q : CallbackQuery)
    (pending : Pending) : PendingUsers × List Call :=
  let r := awaitAll gw 0
    [Call.kickChatMember q.chatId q.sender.id,
     Call.unbanChatMember q.chatId q.sender.id,
     Call.deleteMessage q.chatId pending.messageId]
  if r.2 then
    let ack := Call.answerCallbackQuery q.id
      "❌ Wrong answer! You have been removed.".toList
    match gw 3 with
    | some _ => (mapDelete pendingUsers q.sender.id, r.1 ++ [ack])
    | none =>
      (mapDelete pendingUsers q.sender.id, r.1 ++ [ack,
        Call.answerCallbackQuery q.id "Error processing verification!".toList])
  else
    (pendingUsers, r.1 ++
      [Call.answerCallbackQuery q.id "Error processing verification!".toList])

/-! ## Decoys: what the loop has collected after a run of draws -/

/-- The candidate `wrong` computed from a draw. -/
def wrongOf (correctAnswer : Int) (d : Fin 20) : Int := correctAnswer + (d.val : Int) - 10

/-- One pass of the loop body on the array `wrongAnswers`, without the test of
the `while`. -/
def pushWrong (correctAnswer : Int) (wrongAnswers : List Int) (d : Fin 20) : List Int :=
  if wrongOf correctAnswer d ≠ correctAnswer ∧ wrongOf correctAnswer d > 0 ∧
      ¬ wrongAnswers.contains (wrongOf correctAnswer d) then
    wrongAnswers ++ [wrongOf correctAnswer d]
  else wrongAnswers

/-- The decoys accepted from a run of draws, in the order of their first
occurrence. -/
def accepted (correctAnswer : Int) (draws : List (Fin 20)) : List Int :=
  draws.foldl (pushWrong correctAnswer) []

/-! ## Handler runs that pause at `await`

A handler runs without interruption from one `await` to the next; while it is
paused, other handlers run.  A run is given by the statements still to be
executed, of which only gateway calls and `pendingUsers.delete` matter. -/

/-- A statement of a handler: an awaited gateway call or `pendingUsers.delete`. -/
inductive Instr where
  | call (c : Call)
  | delete (userId : Nat)
deriving DecidableEq, Repr

/-- The state of a handler run: not started, paused at an `await` with the rest
of the `try` block and the `catch` block still to run, or finished. -/
inductive Routine where
  | idle
  | waiting (body : List Instr) (handler : List Instr)
  | finished
deriving DecidableEq, Repr

/-- The registry and the gateway calls issued so far. -/
structure World where
  pendingUsers : PendingUsers
  calls : List Call
deriving DecidableEq, Repr

/-- Execution up to the next `await`: deletions take effect at once, a call is
issued and the run pauses until the call settles. -/
def runUntilAwait (w : World) : List Instr → List Instr → World × Routine
  | [], _ => (w, Routine.finished)
  | Instr.delete userId :: rest, handler =>
    runUntilAwait { w with pendingUsers := mapDelete w.pendingUsers userId } rest handler
  | Instr.call c :: rest, handler =>
    ({ w with calls := w.calls ++ [c] }, Routine.waiting rest handler)

/-- The statements of the deadline callback, fixed by the test
`pendingUsers.has(user.id)` at its start: the `try` block and the `catch` block. -/
def deadlineBody (pendingUsers : PendingUsers) (t : Timer) : List Instr × List Instr :=
  if mapHas pendingUsers t.user.id then
    ([Instr.call (Call.kickChatMember t.chatId t.user.id),
      Instr.call (Call.unbanChatMember t.chatId t.user.id),
      Instr.call (Call.deleteMessage t.chatId t.messageId),
      Instr.delete t.user.id], [])
  else ([], [])

/-- The statements of the response handler, fixed by the tests at its start (the
channel, the token and `pendingUsers.get(userId)`): the `try` block and the
`catch` block. -/
def responseBody (CHANNEL_ID : Str) (pendingUsers : PendingUsers) (q : CallbackQuery) :
    List Instr × List Instr :=
  let chatId := q.chatId
  let userId := q.sender.id
  let data := q.data
  if numberToString chatId ≠ CHANNEL_ID then ([], [])
  else if startsWith data "captcha_".toList then
    let answer := parseInt (removeFirst "captcha_".toList data)
    match mapGet pendingUsers userId with
    | none =>
      ([Instr.call (Call.answerCallbackQuery q.id "Verification expired!".toList)], [])
    | some pending =>
      if answer = some pending.correctAnswer then
        ([Instr.call (Call.restrictChatMember chatId userId approvedPermissions),
          Instr.call (Call.deleteMessage chatId pending.messageId),
          Instr.call (Call.sendMessage chatId (welcomeText q) none),
          Instr.delete userId,
          Instr.call (Call.answerCallbackQuery q.id "✅ Verified successfully!".toList)],
         [Instr.call (Call.answerCallbackQuery q.id "Error processing verification!".toList)])
      else
        ([Instr.call (Call.kickChatMember chatId userId),
          Instr.call (Call.unbanChatMember chatId userId),
          Instr.call (Call.deleteMessage chatId pending.messageId),
          Instr.delete userId,
          Instr.call (Call.answerCallbackQuery q.id
            "❌ Wrong answer! You have been removed.".toList)],
         [Instr.call (Call.answerCallbackQuery q.id "Error processing verification!".toList)])
  else ([], [])

/-- One turn of a handler run: it starts when it is idle, and goes on after the
awaited call has settled when it is paused, with the `try` block when the call
resolved (`ok`) and with the `catch` block when it rejected. -/
def stepRoutine (start : PendingUsers → List Instr × List Instr) (w : World)
    (routine : Routine) (ok : Bool) : World × Routine :=
  match routine with
  | Routine.idle => runUntilAwait w (start w.pendingUsers).1 (start w.pendingUsers).2
  | Routine.waiting body handler =>
    if ok then runUntilAwait w body handler else runUntilAwait w handler []
  | Routine.finished => (w, Routine.finished)

/-- A turn of the event loop: the deadline callback or the response handler runs
up to its next `await`; `ok` is the outcome of the call it was waiting for. -/
inductive Turn where
  | deadline (ok : Bool)
  | response (ok : Bool)
deriving DecidableEq, Repr

/-- The deadline callback and a response handler side by side. -/
structure Race where
  world : World
  deadline : Routine
  response : Routine
deriving DecidableEq, Repr

/-- The effect of one turn. -/
def raceStep (CHANNEL_ID : Str) (t : Timer) (q : CallbackQuery) (r : Race) : Turn → Race
  | Turn.deadline ok =>
    let x := stepRoutine (fun m => deadlineBody m t) r.world r.deadline ok
    { r with world := x.1, deadline := x.2 }
  | Turn.response ok =>
    let x := stepRoutine (fun m => responseBody CHANNEL_ID m q) r.world r.response ok
    { r with world := x.1, response := x.2 }

/-- The run of a list of turns from the registry `pendingUsers`, both handlers idle. -/
def race (CHANNEL_ID : Str) (t : Timer) (q : CallbackQuery) (pendingUsers : PendingUsers)
    (turns : List Turn) : Race :=
  turns.foldl (raceStep CHANNEL_ID t q)
    { world := { pendingUsers := pendingUsers, calls := [] },
      deadline := Routine.idle, response := Routine.idle }

/-! ## How the promise of the response handler settles -/

/-- The handler `bot.on('callback_query', ...)` with the way its promise settles:
the registry after the run, the gateway calls issued, and `true` when the promise
is fulfilled, `false` when it is rejected.  The promise is rejected when a call
awaited outside a `try` block (line 205) or inside a `catch` block (lines 241
and 257) rejects, since nothing catches that rejection.  The number of a call is
the number of calls issued before it in the run. -/
def onCallbackQueryRun (CHANNEL_ID : Str) (gw : Gateway) (pendingUsers : PendingUsers)
    (q : CallbackQuery) : PendingUsers × List Call × Bool :=
  let chatId := q.chatId
  let userId := q.sender.id
  let data := q.data
  if numberToString chatId ≠ CHANNEL_ID then (pendingUsers, [], true)
  else if startsWith data "captcha_".toList then
    let answer := parseInt (removeFirst "captcha_".toList data)
    match mapGet pendingUsers userId with
    | none =>
      (pendingUsers, [Call.answerCallbackQuery q.id "Verification expired!".toList],
        (gw 0).isSome)
    | some pending =>
      if answer = some pending.correctAnswer then
        let r := awaitAll gw 0
          [Call.restrictChatMember chatId userId approvedPermissions,
           Call.deleteMessage chatId pending.messageId,
           Call.sendMessage chatId (welcomeText q) none]
        if r.2 then
          let ack := Call.answerCallbackQuery q.id "✅ Verified successfully!".toList
          match gw 3 with
          | some _ => (mapDelete pendingUsers userId, r.1 ++ [ack], true)
          | none =>
            (mapDelete pendingUsers userId, r.1 ++ [ack,
              Call.answerCallbackQuery q.id "Error processing verification!".toList],
              (gw 4).isSome)
        else
          (pendingUsers, r.1 ++
            [Call.answerCallbackQuery q.id "Error processing verification!".toList],
            (gw r.1.length).isSome)
      else
        let r := awaitAll gw 0
          [Call.kickChatMember chatId userId,
           Call.unbanChatMember chatId userId,
           Call.deleteMessage chatId pending.messageId]
        if r.2 then
          let ack := Call.answerCallbackQuery q.id
            "❌ Wrong answer! You have been removed.".toList
          match gw 3 with
          | some _ => (mapDelete pendingUsers userId, r.1 ++ [ack], true)
          | none =>
            (mapDelete pendingUsers userId, r.1 ++ [ack,
              Call.answerCallbackQuery q.id "Error processing verification!".toList],
              (gw 4).isSome)
        else
          (pendingUsers, r.1 ++
            [Call.answerCallbackQuery q.id "Error processing verification!".toList],
            (gw r.1.length).isSome)
  else (pendingUsers, [], true)

/-! ## Draws that end the decoy loop -/

/-- Three draws with pairwise distinct acceptable values occur in the list of
draws: each value differs from the correct answer and is positive. -/
def ThreeDecoysDrawn (correctAnswer : Int) (draws : List (Fin 20)) : Prop :=
  ∃ d1 d2 d3 : Fin 20, d1 ∈ draws ∧ d2 ∈ draws ∧ d3 ∈ draws ∧
    wrongOf correctAnswer d1 ≠ wrongOf correctAnswer d2 ∧
    wrongOf correctAnswer d1 ≠ wrongOf correctAnswer d3 ∧
    wrongOf correctAnswer d2 ≠ wrongOf correctAnswer d3 ∧
    ∀ d ∈ [d1, d2, d3], wrongOf correctAnswer d ≠ correctAnswer ∧ 0 < wrongOf correctAnswer d

/-! ## Lemmas on strings -/

theorem includes_iff (s k : Str) : includes s k = true ↔ k <:+: s := by
  simp only [includes, List.any_eq_true, List.mem_tails, List.isPrefixOf_iff_prefix]
  rw [List.infix_iff_prefix_suffix]
  constructor
  · rintro ⟨t, ht, hk⟩
    exact ⟨t, hk, ht⟩
  · rintro ⟨t, hk, ht⟩
    exact ⟨t, ht, hk⟩

theorem toLowerCase_append (s t : Str) :
    toLowerCase (s ++ t) = toLowerCase s ++ toLowerCase t := by
  simp [toLowerCase]

theorem any_includes_iff (s : Str) :
    SUSPICIOUS_KEYWORDS.any (fun keyword => includes s keyword) = true ↔
      ∃ k ∈ SUSPICIOUS_KEYWORDS, k <:+: s := by
  simp only [List.any_eq_true, includes_iff]

theorem usernamePattern_iff (s : Str) :
    usernamePattern s = true ↔
      5 ≤ s.length ∧ s.length ≤ 32 ∧ ∀ c ∈ s, isWordChar c = true := by
  simp [usernamePattern, and_assoc]

theorem usernamePattern_ne_nil (s : Str) (h : usernamePattern s = true) : s ≠ [] := by
  rw [usernamePattern_iff] at h
  intro hs
  subst hs
  simp at h

/-- The handle test removes nothing from the pattern test but the handles that
carry a keyword. -/
theorem isValidUsername_some (s : Str) :
    isValidUsername (some s) = true ↔
      usernamePattern s = true ∧ ∀ k ∈ SUSPICIOUS_KEYWORDS, ¬ k <:+: toLowerCase s := by
  unfold isValidUsername
  by_cases hs : s = []
  · subst hs
    simp [usernamePattern]
  · have hne : s.isEmpty = false := by
      cases s with
      | nil => exact absurd rfl hs
      | cons c r => rfl
    simp only [hne, Bool.false_eq_true, if_false]
    by_cases hk : SUSPICIOUS_KEYWORDS.any (fun keyword => includes (toLowerCase s) keyword) = true
    · simp only [hk, if_true, Bool.false_eq_true, false_iff, not_and, not_forall]
      intro _
      obtain ⟨k, hk1, hk2⟩ := (any_includes_iff _).1 hk
      exact ⟨k, hk1, fun h => h hk2⟩
    · simp only [hk, if_false]
      constructor
      · intro h
        refine ⟨h, fun k hk1 hk2 => hk ((any_includes_iff _).2 ⟨k, hk1, hk2⟩)⟩
      · exact fun h => h.1

theorem hasCleanProfile_iff (user : User) :
    hasCleanProfile user = true ↔
      ∀ k ∈ SUSPICIOUS_KEYWORDS, ¬ k <:+: toLowerCase (profileText user) := by
  unfold hasCleanProfile
  rw [Bool.not_eq_true', ← Bool.not_eq_true, any_includes_iff]
  simp

/-! ## Screening -/

/-- C3: `isValidUsername` holds exactly for the handles that are present and
non-empty, have 5 to 32 characters all from `[A-Za-z0-9_]`, and whose lower-cased
form contains no denylist term; it is false for a handle that contains a term in
any casing at any position, and false for a handle that is too short, too long or
has a character outside the class. -/
theorem isValidUsername_spec (handle : Option Str) :
    (isValidUsername handle = true ↔
      ∃ s, handle = some s ∧ s ≠ [] ∧ 5 ≤ s.length ∧ s.length ≤ 32 ∧
        (∀ c ∈ s, isWordChar c = true) ∧
        ∀ k ∈ SUSPICIOUS_KEYWORDS, ¬ k <:+: toLowerCase s) ∧
    (∀ pre t post : Str, toLowerCase t ∈ SUSPICIOUS_KEYWORDS →
      isValidUsername (some (pre ++ t ++ post)) = false) ∧
    (∀ s : Str, (s.length < 5 ∨ 32 < s.length ∨ ∃ c ∈ s, isWordChar c = false) →
      isValidUsername (some s) = false) := by
  refine ⟨?_, ?_, ?_⟩
  · cases handle with
    | none => simp [isValidUsername]
    | some s =>
      rw [isValidUsername_some, usernamePattern_iff]
      constructor
      · rintro ⟨⟨h1, h2, h3⟩, h4⟩
        refine ⟨s, rfl, ?_, h1, h2, h3, h4⟩
        exact usernamePattern_ne_nil s ((usernamePattern_iff s).2 ⟨h1, h2, h3⟩)
      · rintro ⟨s', hs, _, h1, h2, h3, h4⟩
        cases hs
        exact ⟨⟨h1, h2, h3⟩, h4⟩
  · intro pre t post ht
    rw [← Bool.not_eq_true, isValidUsername_some]
    rintro ⟨_, h⟩
    apply h _ ht
    rw [toLowerCase_append, toLowerCase_append]
    exact ⟨toLowerCase pre, toLowerCase post, rfl⟩
  · intro s hs
    rw [← Bool.not_eq_true, isValidUsername_some, usernamePattern_iff]
    rintro ⟨⟨h1, h2, h3⟩, _⟩
    rcases hs with h | h | ⟨c, hc, hw⟩
    · omega
    · omega
    · rw [h3 c hc] at hw
      exact Bool.noConfusion hw

/-- C4: `passesBasicValidation` is the conjunction of the three checks; a clean
profile already excludes every denylist term from the handle, so the handle
check contributes only the pattern test. -/
theorem passesBasicValidation_spec (now : Nat) (user : User) :
    passesBasicValidation now user =
        (isValidUsername user.username && hasCleanProfile user &&
          isAccountOldEnough now user.id) ∧
    (hasCleanProfile user = true →
      ∀ k ∈ SUSPICIOUS_KEYWORDS, ¬ k <:+: toLowerCase (user.username.getD [])) ∧
    passesBasicValidation now user =
        (handleMatchesPattern user.username && hasCleanProfile user &&
          isAccountOldEnough now user.id) := by
  have hclean : hasCleanProfile user = true →
      ∀ k ∈ SUSPICIOUS_KEYWORDS, ¬ k <:+: toLowerCase (user.username.getD []) := by
    intro h k hk hin
    refine (hasCleanProfile_iff user).1 h k hk ?_
    unfold profileText
    rw [toLowerCase_append]
    obtain ⟨a, b, hab⟩ := hin
    exact ⟨toLowerCase (user.first_name.getD [] ++ " ".toList ++ user.last_name.getD []
      ++ " ".toList) ++ a, b, by rw [← hab]; simp only [List.append_assoc]⟩
  refine ⟨rfl, hclean, ?_⟩
  unfold passesBasicValidation
  simp only
  cases hc : hasCleanProfile user with
  | false => simp
  | true =>
    have hv : isValidUsername user.username = handleMatchesPattern user.username := by
      have hk := hclean hc
      cases hu : user.username with
      | none => rfl
      | some s =>
        rw [hu] at hk
        simp only [Option.getD_some] at hk
        rw [Bool.eq_iff_iff, isValidUsername_some]
        simp only [handleMatchesPattern]
        exact ⟨fun h => h.1, fun h => ⟨h, hk⟩⟩
    rw [hv]

/-! ## Account age -/

theorem two_zpow_eq (e : Int) :
    (2 : ℚ) ^ e = (2 : ℚ) ^ e.toNat / (2 : ℚ) ^ (-e).toNat := by
  have h : e = (e.toNat : Int) - ((-e).toNat : Int) := by omega
  conv_lhs => rw [h]
  rw [zpow_sub₀ (by norm_num : (2 : ℚ) ≠ 0), zpow_natCast, zpow_natCast]

theorem Dbl.ltInt_iff (x : Dbl) (t : Int) :
    x.ltInt t = true ↔ x.toRat < (t : ℚ) := by
  unfold Dbl.ltInt Dbl.toRat
  rw [decide_eq_true_iff, two_zpow_eq, ← mul_div_assoc,
    div_lt_iff₀ (by positivity : (0 : ℚ) < 2 ^ (-x.e).toNat)]
  constructor
  · intro h
    exact_mod_cast h
  · intro h
    exact_mod_cast h

theorem floorLog2_spec (fuel n : Nat) (h1 : 0 < n) (h2 : n ≤ fuel) :
    2 ^ floorLog2 fuel n ≤ n ∧ n < 2 ^ (floorLog2 fuel n + 1) := by
  induction fuel generalizing n with
  | zero => omega
  | succ fuel ih =>
    unfold floorLog2
    by_cases hn : n < 2
    · simp only [hn, if_true]
      constructor <;> simp <;> omega
    · simp only [hn, if_false]
      obtain ⟨ha, hb⟩ := ih (n / 2) (by omega) (by omega)
      rw [pow_succ] at hb ⊢
      rw [pow_succ]
      constructor <;> omega

theorem quotExponent_spec (p q : Nat) (hp : 0 < p) (hq : 0 < q) :
    (2 : ℚ) ^ quotExponent p q ≤ (p : ℚ) / q ∧
    (p : ℚ) / q < (2 : ℚ) ^ (quotExponent p q + 1) := by
  obtain ⟨hp1, hp2⟩ := floorLog2_spec p p hp le_rfl
  obtain ⟨hq1, hq2⟩ := floorLog2_spec q q hq le_rfl
  have hqpos : (0 : ℚ) < q := by exact_mod_cast hq
  have hp1q : (2 : ℚ) ^ floorLog2 p p ≤ p := by exact_mod_cast hp1
  have hp2q : (p : ℚ) < 2 ^ (floorLog2 p p + 1) := by exact_mod_cast hp2
  have hq1q : (2 : ℚ) ^ floorLog2 q q ≤ q := by exact_mod_cast hq1
  have hq2q : (q : ℚ) < 2 ^ (floorLog2 q q + 1) := by exact_mod_cast hq2
  have h2 : (2 : ℚ) ≠ 0 := by norm_num
  -- the first guess is off by less than a factor two
  have hlow : (2 : ℚ) ^ (((floorLog2 p p : Int) - (floorLog2 q q : Int)) - 1) < (p : ℚ) / q := by
    rw [lt_div_iff₀ hqpos, zpow_sub₀ h2, zpow_sub₀ h2, zpow_natCast, zpow_natCast, zpow_one]
    have : (2 : ℚ) ^ floorLog2 p p / 2 ^ floorLog2 q q / 2 * q
        = 2 ^ floorLog2 p p * (q / 2 ^ (floorLog2 q q + 1)) := by
      rw [pow_succ]; field_simp
    rw [this]
    have hlt : (q : ℚ) / 2 ^ (floorLog2 q q + 1) < 1 := by
      rw [div_lt_one (by positivity)]; exact hq2q
    calc (2 : ℚ) ^ floorLog2 p p * (q / 2 ^ (floorLog2 q q + 1))
        < 2 ^ floorLog2 p p * 1 := by
          apply mul_lt_mul_of_pos_left hlt (by positivity)
      _ ≤ p := by rw [mul_one]; exact hp1q
  have hhigh : (p : ℚ) / q < (2 : ℚ) ^ (((floorLog2 p p : Int) - (floorLog2 q q : Int)) + 1) := by
    rw [div_lt_iff₀ hqpos, zpow_add₀ h2, zpow_sub₀ h2, zpow_natCast, zpow_natCast, zpow_one]
    have : (2 : ℚ) ^ floorLog2 p p / 2 ^ floorLog2 q q * 2 * q
        = 2 ^ (floorLog2 p p + 1) * (q / 2 ^ floorLog2 q q) := by
      rw [pow_succ]; field_simp
    rw [this]
    have hge : (1 : ℚ) ≤ q / 2 ^ floorLog2 q q := by
      rw [one_le_div (by positivity)]; exact hq1q
    calc (p : ℚ) < 2 ^ (floorLog2 p p + 1) := hp2q
      _ = 2 ^ (floorLog2 p p + 1) * 1 := by rw [mul_one]
      _ ≤ 2 ^ (floorLog2 p p + 1) * (q / 2 ^ floorLog2 q q) := by
          apply mul_le_mul_of_nonneg_left hge (by positivity)
  unfold quotExponent
  simp only
  generalize ((floorLog2 p p : Int) - (floorLog2 q q : Int)) = E0 at hlow hhigh ⊢
  have hcond : (q * 2 ^ E0.toNat ≤ p * 2 ^ (-E0).toNat) ↔ (2 : ℚ) ^ E0 ≤ (p : ℚ) / q := by
    rw [two_zpow_eq E0, le_div_iff₀ hqpos, div_mul_eq_mul_div,
      div_le_iff₀ (by positivity : (0 : ℚ) < 2 ^ (-E0).toNat)]
    constructor
    · intro h
      have : ((q * 2 ^ E0.toNat : Nat) : ℚ) ≤ ((p * 2 ^ (-E0).toNat : Nat) : ℚ) := by
        exact_mod_cast h
      push_cast at this
      linarith
    · intro h
      have : ((q * 2 ^ E0.toNat : Nat) : ℚ) ≤ ((p * 2 ^ (-E0).toNat : Nat) : ℚ) := by
        push_cast
        linarith
      exact_mod_cast this
  by_cases hc : q * 2 ^ E0.toNat ≤ p * 2 ^ (-E0).toNat
  · rw [if_pos hc]
    exact ⟨hcond.1 hc, hhigh⟩
  · rw [if_neg hc]
    refine ⟨le_of_lt hlow, ?_⟩
    rw [sub_add_cancel]
    exact lt_of_not_le (fun h => hc (hcond.2 h))

theorem roundQuot_eq (p q : Nat) (hp : 0 < p) :
    roundQuot p q =
      ⟨(p * 2 ^ (-(quotExponent p q - 52)).toNat) / (q * 2 ^ (quotExponent p q - 52).toNat) +
        (if q * 2 ^ (quotExponent p q - 52).toNat
              < 2 * ((p * 2 ^ (-(quotExponent p q - 52)).toNat)
                  % (q * 2 ^ (quotExponent p q - 52).toNat)) ∨
            (2 * ((p * 2 ^ (-(quotExponent p q - 52)).toNat)
                  % (q * 2 ^ (quotExponent p q - 52).toNat))
                = q * 2 ^ (quotExponent p q - 52).toNat ∧
              ((p * 2 ^ (-(quotExponent p q - 52)).toNat)
                  / (q * 2 ^ (quotExponent p q - 52).toNat)) % 2 = 1)
         then 1 else 0),
       quotExponent p q - 52⟩ := by
  unfold roundQuot
  rw [if_neg (by omega : ¬ p = 0)]
  simp only
  split <;> rfl

/-- The rounding of `roundQuot` is to the nearest value with 53 significant bits,
and a tie goes to the even significand. -/
theorem roundQuot_nearest (p q : Nat) (hp : 0 < p) (hq : 0 < q) :
    2 ^ 52 ≤ (roundQuot p q).m ∧ (roundQuot p q).m ≤ 2 ^ 53 ∧
    |(roundQuot p q).toRat - (p : ℚ) / q| ≤ (2 : ℚ) ^ (roundQuot p q).e / 2 ∧
    (|(roundQuot p q).toRat - (p : ℚ) / q| = (2 : ℚ) ^ (roundQuot p q).e / 2 →
      (roundQuot p q).m % 2 = 0) := by
  rw [roundQuot_eq p q hp]
  obtain ⟨hE1, hE2⟩ := quotExponent_spec p q hp hq
  generalize quotExponent p q = E at hE1 hE2 ⊢
  generalize hs : E - 52 = s
  have hE : E = s + 52 := by omega
  subst hE
  clear hs
  generalize hN : p * 2 ^ (-s).toNat = N
  generalize hD : q * 2 ^ s.toNat = D
  have hDpos : 0 < D := by
    rw [← hD]; positivity
  have hDq : (0 : ℚ) < D := by exact_mod_cast hDpos
  have hqpos : (0 : ℚ) < q := by exact_mod_cast hq
  have h2 : (2 : ℚ) ≠ 0 := by norm_num
  have hspos : (0 : ℚ) < 2 ^ s := by positivity
  -- the scaled quotient
  have hx : (p : ℚ) / q = (N : ℚ) / D * 2 ^ s := by
    rw [← hN, ← hD, two_zpow_eq s]
    push_cast
    field_simp
    ring
  have hx1 : (2 : ℚ) ^ (52 : Nat) ≤ (N : ℚ) / D := by
    have h : (2 : ℚ) ^ (s + 52) = 2 ^ (52 : Nat) * 2 ^ s := by
      rw [zpow_add₀ h2, mul_comm]; norm_cast
    rw [h, hx] at hE1
    exact le_of_mul_le_mul_right hE1 hspos
  have hx2 : (N : ℚ) / D < (2 : ℚ) ^ (53 : Nat) := by
    have h : (2 : ℚ) ^ (s + 52 + 1) = 2 ^ (53 : Nat) * 2 ^ s := by
      rw [add_assoc, zpow_add₀ h2, mul_comm]; norm_cast
    rw [h, hx] at hE2
    exact lt_of_mul_lt_mul_right hE2 (le_of_lt hspos)
  have hN1 : 2 ^ 52 * D ≤ N := by
    rw [le_div_iff₀ hDq] at hx1
    exact_mod_cast hx1
  have hN2 : N < 2 ^ 53 * D := by
    rw [div_lt_iff₀ hDq] at hx2
    exact_mod_cast hx2
  have hQ1 : 2 ^ 52 ≤ N / D := (Nat.le_div_iff_mul_le hDpos).2 hN1
  have hQ2 : N / D < 2 ^ 53 := (Nat.div_lt_iff_lt_mul hDpos).2 hN2
  have hdm : D * (N / D) + N % D = N := Nat.div_add_mod N D
  have hR : N % D < D := Nat.mod_lt N hDpos
  generalize N / D = Q at hQ1 hQ2 hdm ⊢
  generalize N % D = R at hdm hR ⊢
  have hxQ : (N : ℚ) / D = Q + (R : ℚ) / D := by
    rw [← hdm]; push_cast; field_simp; ring
  have hRq : (R : ℚ) < D := by exact_mod_cast hR
  have hR0 : (0 : ℚ) ≤ R := by positivity
  simp only [Dbl.toRat]
  rw [hx, hxQ]
  have hhalf : (2 : ℚ) ^ s / 2 = 1 / 2 * 2 ^ s := by ring
  by_cases hup : D < 2 * R ∨ (2 * R = D ∧ Q % 2 = 1)
  · rw [if_pos hup]
    have h2R : D ≤ 2 * R := by omega
    have h2Rq : (D : ℚ) ≤ 2 * R := by exact_mod_cast h2R
    have hfrac : (1 : ℚ) / 2 ≤ (R : ℚ) / D := by
      rw [div_le_div_iff₀ (by norm_num) hDq]; linarith
    have hfrac1 : (R : ℚ) / D < 1 := by
      rw [div_lt_one hDq]; exact hRq
    have herr1 : ((Q + 1 : Nat) : ℚ) * 2 ^ s - (Q + (R : ℚ) / D) * 2 ^ s
        = (1 - (R : ℚ) / D) * 2 ^ s := by
      push_cast; ring
    rw [herr1, abs_of_nonneg (mul_nonneg (by linarith) (le_of_lt hspos))]
    refine ⟨by omega, by omega, ?_, ?_⟩
    · rw [hhalf]
      exact mul_le_mul_of_nonneg_right (by linarith) (le_of_lt hspos)
    · intro htie
      have h12 : 1 - (R : ℚ) / D = 1 / 2 := by
        rw [hhalf] at htie
        exact mul_right_cancel₀ (ne_of_gt hspos) htie
      have hRD : (2 : ℚ) * R = D := by
        have : (R : ℚ) / D = 1 / 2 := by linarith
        rw [div_eq_iff (ne_of_gt hDq)] at this
        linarith
      have hRDn : 2 * R = D := by exact_mod_cast hRD
      omega
  · rw [if_neg hup]
    have h2R : 2 * R ≤ D := by omega
    have h2Rq : (2 : ℚ) * R ≤ D := by exact_mod_cast h2R
    have hfrac : (R : ℚ) / D ≤ 1 / 2 := by
      rw [div_le_div_iff₀ hDq (by norm_num)]; linarith
    have hfrac0 : (0 : ℚ) ≤ (R : ℚ) / D := by positivity
    have herr1 : ((Q + 0 : Nat) : ℚ) * 2 ^ s - (Q + (R : ℚ) / D) * 2 ^ s
        = - ((R : ℚ) / D * 2 ^ s) := by
      push_cast; ring
    rw [herr1, abs_neg, abs_of_nonneg (mul_nonneg hfrac0 (le_of_lt hspos))]
    refine ⟨by omega, by omega, ?_, ?_⟩
    · rw [hhalf]
      exact mul_le_mul_of_nonneg_right hfrac (le_of_lt hspos)
    · intro htie
      have h12 : (R : ℚ) / D = 1 / 2 := by
        rw [hhalf] at htie
        exact mul_right_cancel₀ (ne_of_gt hspos) htie
      have hRD : (2 : ℚ) * R = D := by
        rw [div_eq_iff (ne_of_gt hDq)] at h12
        linarith
      have hRDn : 2 * R = D := by exact_mod_cast hRD
      omega

/-- The product `Dbl.mulNat x k` is the rounding of the exact product. -/
theorem Dbl.mulNat_arg (x : Dbl) (k : Nat) :
    ((x.m * k * 2 ^ x.e.toNat : Nat) : ℚ) / ((2 ^ (-x.e).toNat : Nat) : ℚ) = x.toRat * k := by
  unfold Dbl.toRat
  rw [two_zpow_eq x.e]
  push_cast
  field_simp
  ring

/-- The estimate for id 35 is `6649846324789247 * 2 ^ (-41)`, the binary64 number
just below 3024. -/
theorem estimatedCreationTime_35 :
    estimatedCreationTime 35 = ⟨6649846324789247, -41⟩ ∧
    (⟨6649846324789247, -41⟩ : Dbl).toRat < 3024 := by
  refine ⟨by decide, ?_⟩
  unfold Dbl.toRat
  norm_num

/-- C5 (amended): `isAccountOldEnough` holds exactly when the estimate, taken as
the binary64 value of `(id / 1000000) * 86400 * 1000`, is more than 30 days
before `now`; it is false otherwise, the boundary included. -/
theorem isAccountOldEnough_spec (now id : Nat) :
    (isAccountOldEnough now id = true ↔
      (estimatedCreationTime id).toRat < (now : ℚ) - 2592000000) ∧
    (isAccountOldEnough now id = false ↔
      (now : ℚ) - 2592000000 ≤ (estimatedCreationTime id).toRat) := by
  have key : isAccountOldEnough now id = true ↔
      (estimatedCreationTime id).toRat < (now : ℚ) - 2592000000 := by
    unfold isAccountOldEnough
    simp only
    rw [Dbl.ltInt_iff]
    push_cast
    norm_num
  refine ⟨key, ?_⟩
  rw [← Bool.not_eq_true, key, not_lt]

/-- C5 (counterexample): for id 35 the exact estimate is 3024 ms; at the clock
value 3024 ms + 30 days the estimate is on the boundary, yet the source answers
`true`, because the binary64 estimate is slightly below 3024. -/
theorem isAccountOldEnough_exact_boundary_fails :
    ¬ (isAccountOldEnough 2592003024 35 = true ↔
        (35 : ℚ) / 1000000 * 86400 * 1000 < (2592003024 : ℚ) - 2592000000) := by
  intro h
  have h1 : isAccountOldEnough 2592003024 35 = true := by decide
  have h2 := h.1 h1
  norm_num at h2

/-! ## Captcha generation -/

/-- C7: the answer of `generateCaptcha` is the arithmetic value of the question
it renders; a subtraction is rendered as larger operand minus smaller operand and
its answer, the absolute difference, is that value and is never negative. -/
theorem generateCaptcha_answer (r1 r2 : Fin 10) (r3 : Fin 3) :
    (1 ≤ operand r1 ∧ operand r1 ≤ 10 ∧ 1 ≤ operand r2 ∧ operand r2 ≤ 10) ∧
    evalQuestion (generateCaptcha r1 r2 r3).question = some (generateCaptcha r1 r2 r3).answer ∧
    (operators.get r3 = Operator.plus →
      (generateCaptcha r1 r2 r3).question
          = numberToString (operand r1) ++ " + ".toList ++ numberToString (operand r2) ∧
      (generateCaptcha r1 r2 r3).answer = operand r1 + operand r2) ∧
    (operators.get r3 = Operator.times →
      (generateCaptcha r1 r2 r3).question
          = numberToString (operand r1) ++ " × ".toList ++ numberToString (operand r2) ∧
      (generateCaptcha r1 r2 r3).answer = operand r1 * operand r2) ∧
    (operators.get r3 = Operator.minus →
      (generateCaptcha r1 r2 r3).question
          = numberToString (max (operand r1) (operand r2)) ++ " - ".toList
              ++ numberToString (min (operand r1) (operand r2)) ∧
      (generateCaptcha r1 r2 r3).answer = |operand r1 - operand r2| ∧
      (generateCaptcha r1 r2 r3).answer
          = max (operand r1) (operand r2) - min (operand r1) (operand r2) ∧
      0 ≤ (generateCaptcha r1 r2 r3).answer) := by
  revert r1 r2 r3
  decide

theorem answer_nonneg_of_generateCaptcha (r1 r2 : Fin 10) (r3 : Fin 3) :
    0 ≤ (generateCaptcha r1 r2 r3).answer := by
  revert r1 r2 r3
  decide

theorem insertWith_perm (cmps : Nat → Bool) (x : Int) (l : List Int) (k : Nat) :
    (insertWith cmps x l k).1.Perm (x :: l) := by
  induction l generalizing k with
  | nil => simp [insertWith]
  | cons y ys ih =>
    unfold insertWith
    by_cases h : cmps k = true
    · simp [h]
    · simp only [h, Bool.false_eq_true, if_false]
      exact ((ih (k + 1)).cons y).trans (List.Perm.swap x y ys)

theorem sortWith_perm (cmps : Nat → Bool) (l : List Int) (k : Nat) :
    (sortWith cmps l k).1.Perm l := by
  induction l generalizing k with
  | nil => simp [sortWith]
  | cons x xs ih =>
    unfold sortWith
    exact (insertWith_perm cmps x _ _).trans ((ih k).cons x)

theorem wrongAnswersLoop_spec (c : Int) (draws : List (Fin 20)) (acc ws : List Int)
    (rest : List (Fin 20)) (hacc : DecoysOk c acc) (hlen : acc.length ≤ 3)
    (h : wrongAnswersLoop c draws acc = some (ws, rest)) :
    ws.length = 3 ∧ DecoysOk c ws := by
  induction draws generalizing acc with
  | nil =>
    unfold wrongAnswersLoop at h
    split at h
    · exact Option.noConfusion h
    · simp only [Option.some.injEq, Prod.mk.injEq] at h
      obtain ⟨rfl, _⟩ := h
      exact ⟨by omega, hacc⟩
  | cons d ds ih =>
    unfold wrongAnswersLoop at h
    split at h
    · rename_i hlt
      simp only at h
      split at h
      · rename_i hw
        obtain ⟨hne, hpos, hnot⟩ := hw
        refine ih (acc ++ [c + (d.val : Int) - 10]) ?_ ?_ h
        · refine ⟨?_, ?_⟩
          · rw [List.nodup_append]
            refine ⟨hacc.1, List.nodup_singleton _, ?_⟩
            intro a ha hb
            rw [List.mem_singleton] at hb
            subst hb
            exact hnot (by simpa using ha)
          · intro w hw
            rw [List.mem_append, List.mem_singleton] at hw
            rcases hw with hw | hw
            · exact hacc.2 w hw
            · subst hw
              have := d.isLt
              exact ⟨hne, hpos, by omega, by omega⟩
        · simp only [List.length_append, List.length_singleton]
          omega
      · exact ih acc hacc hlen h
    · simp only [Option.some.injEq, Prod.mk.injEq] at h
      obtain ⟨rfl, _⟩ := h
      exact ⟨by omega, hacc⟩

theorem shuffledAnswers_spec (c : Int) (draws : List (Fin 20)) (cmps : Nat → Bool)
    (vs : List Int) (h : shuffledAnswers c draws cmps = some vs) :
    ∃ ws, ws.length = 3 ∧ DecoysOk c ws ∧ vs.Perm (c :: ws) := by
  unfold shuffledAnswers at h
  split at h
  · exact Option.noConfusion h
  · rename_i ws rest hloop
    simp only [Option.some.injEq] at h
    subst h
    have hs := wrongAnswersLoop_spec c draws [] ws rest
      ⟨List.nodup_nil, fun w hw => absurd hw (List.not_mem_nil w)⟩ (by simp) hloop
    exact ⟨ws, hs.1, hs.2, sortWith_perm cmps _ 0⟩

theorem createCaptchaKeyboard_eq (c : Int) (draws : List (Fin 20)) (cmps : Nat → Bool)
    (kb : List (List Button)) (h : createCaptchaKeyboard c draws cmps = some kb) :
    ∃ vs, shuffledAnswers c draws cmps = some vs ∧
      kb = vs.map (fun answer => [answerButton answer]) := by
  unfold createCaptchaKeyboard at h
  split at h
  · exact Option.noConfusion h
  · rename_i vs hvs
    simp only [Option.some.injEq] at h
    exact ⟨vs, hvs, h.symm⟩

/-- C6 (amended): when `createCaptchaKeyboard` returns for an answer of
`generateCaptcha`, the keyboard has one button for each of exactly 4 answers,
which are pairwise distinct and include the correct answer; the answers other
than the correct one are strictly positive, the correct one is not negative, and
all four are strictly positive when the correct one is. -/
theorem createCaptchaKeyboard_answers (r1 r2 : Fin 10) (r3 : Fin 3)
    (draws : List (Fin 20)) (cmps : Nat → Bool) (kb : List (List Button))
    (h : createCaptchaKeyboard (generateCaptcha r1 r2 r3).answer draws cmps = some kb) :
    ∃ vs : List Int, kb = vs.map (fun answer => [answerButton answer]) ∧
      vs.length = 4 ∧ vs.Nodup ∧ (generateCaptcha r1 r2 r3).answer ∈ vs ∧
      (∀ v ∈ vs, v ≠ (generateCaptcha r1 r2 r3).answer → 0 < v) ∧
      (∀ v ∈ vs, 0 ≤ v) ∧
      (0 < (generateCaptcha r1 r2 r3).answer → ∀ v ∈ vs, 0 < v) := by
  obtain ⟨vs, hvs, hkb⟩ := createCaptchaKeyboard_eq _ _ _ _ h
  obtain ⟨ws, hlen, ⟨hnd, hws⟩, hperm⟩ := shuffledAnswers_spec _ _ _ _ hvs
  have hc := answer_nonneg_of_generateCaptcha r1 r2 r3
  have hmem : ∀ v, v ∈ vs ↔ v = (generateCaptcha r1 r2 r3).answer ∨ v ∈ ws := by
    intro v
    rw [hperm.mem_iff, List.mem_cons]
  refine ⟨vs, hkb, ?_, ?_, ?_, ?_, ?_, ?_⟩
  · rw [hperm.length_eq, List.length_cons, hlen]
  · rw [hperm.nodup_iff, List.nodup_cons]
    exact ⟨fun hin => (hws _ hin).1 rfl, hnd⟩
  · exact (hmem _).2 (Or.inl rfl)
  · intro v hv hne
    rcases (hmem v).1 hv with h1 | h1
    · exact absurd h1 hne
    · exact (hws v h1).2.1
  · intro v hv
    rcases (hmem v).1 hv with h1 | h1
    · rw [h1]; exact hc
    · exact le_of_lt (hws v h1).2.1
  · intro hpos v hv
    rcases (hmem v).1 hv with h1 | h1
    · rw [h1]; exact hpos
    · exact (hws v h1).2.1

/-- C6 (witness): a question `3 + 5` with three accepted draws. -/
theorem createCaptchaKeyboard_answers_witness :
    ∃ vs : List Int,
      [[answerButton 9], [answerButton 7], [answerButton 6], [answerButton 8]]
        = vs.map (fun answer => [answerButton answer]) ∧
      vs.length = 4 ∧ vs.Nodup ∧ (generateCaptcha 2 4 0).answer ∈ vs ∧
      (∀ v ∈ vs, v ≠ (generateCaptcha 2 4 0).answer → 0 < v) ∧
      (∀ v ∈ vs, 0 ≤ v) ∧
      (0 < (generateCaptcha 2 4 0).answer → ∀ v ∈ vs, 0 < v) :=
  createCaptchaKeyboard_answers 2 4 0 [10, 8, 9, 11] (fun _ => false) _ (by decide)

/-- C6 (counterexample): the question `1 - 1` has the answer 0, and the keyboard
built for it offers 0, which is not strictly positive. -/
theorem createCaptchaKeyboard_offers_zero :
    ∃ vs : List Int,
      shuffledAnswers (generateCaptcha 0 0 1).answer [11, 12, 13] (fun _ => false) = some vs ∧
      ¬ (vs.length = 4 ∧ vs.Nodup ∧ (∀ v ∈ vs, 0 < v) ∧
          (generateCaptcha 0 0 1).answer ∈ vs) := by
  refine ⟨[3, 2, 1, 0], by decide, ?_⟩
  rintro ⟨_, _, hpos, _⟩
  exact absurd (hpos 0 (by decide)) (by decide)

/-! ## Numbers as text: reading back what was written -/

theorem digitChar_facts :
    ∀ d, d < 10 →
      digitValue (digitChar d) = some d ∧ isRadixDigit 10 (digitChar d) = true ∧
      isWhiteSpace (digitChar d) = false ∧ digitChar d ≠ '-' ∧ digitChar d ≠ '+' ∧
      digitChar d ≠ 'x' ∧ digitChar d ≠ 'X' := by
  decide

/-- The characters of a decimal numeral. -/
theorem natDigits_append (fuel n : Nat) (acc : Str) :
    natDigits fuel n acc = natDigits fuel n [] ++ acc := by
  induction fuel generalizing n acc with
  | zero => simp [natDigits]
  | succ fuel ih =>
    unfold natDigits
    by_cases h : n < 10
    · simp [h]
    · simp only [h, if_false]
      rw [ih (n / 10) (digitChar (n % 10) :: acc), ih (n / 10) [digitChar (n % 10)]]
      simp

theorem digitsValue_snoc (radix : Nat) (s : Str) (c : Char) :
    digitsValue radix (s ++ [c]) = digitsValue radix s * radix + (digitValue c).getD 0 := by
  simp [digitsValue, List.foldl_append]

theorem natDigits_spec (fuel n : Nat) (h : n < fuel) :
    (∀ c ∈ natDigits fuel n [], ∃ d, d < 10 ∧ c = digitChar d) ∧
    natDigits fuel n [] ≠ [] ∧ digitsValue 10 (natDigits fuel n []) = n := by
  induction fuel generalizing n with
  | zero => omega
  | succ fuel ih =>
    unfold natDigits
    by_cases hn : n < 10
    · simp only [hn, if_true]
      refine ⟨?_, by simp, ?_⟩
      · intro c hc
        rw [List.mem_singleton] at hc
        exact ⟨n, hn, hc⟩
      · simp [digitsValue, (digitChar_facts n hn).1]
    · simp only [hn, if_false]
      rw [natDigits_append]
      have hlt : n / 10 < fuel := by omega
      obtain ⟨h1, h2, h3⟩ := ih (n / 10) hlt
      have hmod : n % 10 < 10 := Nat.mod_lt _ (by norm_num)
      refine ⟨?_, by simp, ?_⟩
      · intro c hc
        rw [List.mem_append, List.mem_singleton] at hc
        rcases hc with hc | hc
        · exact h1 c hc
        · exact ⟨n % 10, hmod, hc⟩
      · rw [digitsValue_snoc, h3, (digitChar_facts _ hmod).1]
        simp only [Option.getD_some]
        omega

theorem natToString_spec (n : Nat) :
    (∀ c ∈ natToString n, ∃ d, d < 10 ∧ c = digitChar d) ∧
    natToString n ≠ [] ∧ digitsValue 10 (natToString n) = n :=
  natDigits_spec (n + 1) n (Nat.lt_succ_self n)

/-- What `parseInt` reads from a numeral without sign. -/
theorem parseDigits_natToString (n : Nat) :
    splitSign (natToString n) = (1, natToString n) ∧
    splitRadix (natToString n) = (10, natToString n) ∧
    (natToString n).takeWhile (isRadixDigit 10) = natToString n ∧
    (natToString n).dropWhile isWhiteSpace = natToString n := by
  obtain ⟨h1, h2, _⟩ := natToString_spec n
  generalize natToString n = s at h1 h2
  cases s with
  | nil => exact absurd rfl h2
  | cons c r =>
    obtain ⟨d, hd, hc⟩ := h1 c (List.mem_cons_self _ _)
    obtain ⟨_, _, hws, hm, hp, _, _⟩ := digitChar_facts d hd
    rw [← hc] at hws hm hp
    refine ⟨?_, ?_, ?_, ?_⟩
    · simp [splitSign, hm, hp]
    · cases r with
      | nil => rfl
      | cons c2 r2 =>
        obtain ⟨d2, hd2, hc2⟩ := h1 c2 (List.mem_cons_of_mem _ (List.mem_cons_self _ _))
        obtain ⟨_, _, _, _, _, hx, hX⟩ := digitChar_facts d2 hd2
        rw [← hc2] at hx hX
        simp [splitRadix, hx, hX]
    · rw [List.takeWhile_eq_self_iff]
      intro a ha
      obtain ⟨da, hda, hca⟩ := h1 a ha
      rw [hca]
      exact (digitChar_facts da hda).2.1
    · simp [List.dropWhile, hws]

theorem parseInt_natToString (n : Nat) : parseInt (natToString n) = some (n : Int) := by
  obtain ⟨h1, h2, h3, h4⟩ := parseDigits_natToString n
  obtain ⟨_, hne, hv⟩ := natToString_spec n
  unfold parseInt
  rw [h4, h1]
  simp only
  rw [h2]
  simp only
  rw [h3, hv]
  cases hs : natToString n with
  | nil => exact absurd hs hne
  | cons c r => simp

theorem parseInt_numberToString (v : Int) : parseInt (numberToString v) = some v := by
  cases v with
  | ofNat n => exact parseInt_natToString n
  | negSucc n =>
    obtain ⟨_, h2, h3, _⟩ := parseDigits_natToString (n + 1)
    obtain ⟨_, hne, hv⟩ := natToString_spec (n + 1)
    unfold numberToString parseInt
    have hdrop : ('-' :: natToString (n + 1)).dropWhile isWhiteSpace
        = '-' :: natToString (n + 1) := by
      have : isWhiteSpace '-' = false := by decide
      simp [List.dropWhile, this]
    have hsign : splitSign ('-' :: natToString (n + 1)) = (-1, natToString (n + 1)) := by
      simp [splitSign]
    simp only
    rw [hdrop, hsign]
    simp only
    rw [h2]
    simp only
    rw [h3, hv]
    cases hs : natToString (n + 1) with
    | nil => exact absurd hs hne
    | cons c r =>
      simp only [List.isEmpty_cons, Bool.false_eq_true, if_false, Option.some.injEq]
      rw [Int.negSucc_eq]
      push_cast
      ring

theorem startsWith_append (p s : Str) : startsWith (p ++ s) p = true := by
  unfold startsWith
  rw [List.isPrefixOf_iff_prefix]
  exact List.prefix_append p s

theorem removeFirst_append (a : Char) (p s : Str) :
    removeFirst (a :: p) ((a :: p) ++ s) = s := by
  have hpre : (a :: p).isPrefixOf (a :: (p ++ s)) = true := by
    rw [List.isPrefixOf_iff_prefix]
    exact List.prefix_append (a :: p) s
  rw [List.cons_append]
  unfold removeFirst
  rw [if_pos hpre]
  simp

theorem parseInt_callbackData (v : Int) :
    parseInt (removeFirst "captcha_".toList ("captcha_".toList ++ numberToString v))
      = some v := by
  have h : "captcha_".toList = 'c' :: "aptcha_".toList := by decide
  rw [h, removeFirst_append]
  exact parseInt_numberToString v

/-! ## Registry -/

theorem mapDelete_cons (k : Nat) (v : Pending) (m : PendingUsers) (userId : Nat) :
    mapDelete ((k, v) :: m) userId =
      if k = userId then mapDelete m userId else (k, v) :: mapDelete m userId := by
  unfold mapDelete
  by_cases h : k = userId
  · simp [List.filter_cons, h]
  · simp [List.filter_cons, h]

theorem mapGet_mapDelete_self (m : PendingUsers) (userId : Nat) :
    mapGet (mapDelete m userId) userId = none := by
  induction m with
  | nil => rfl
  | cons e m ih =>
    obtain ⟨k, v⟩ := e
    rw [mapDelete_cons]
    by_cases h : k = userId
    · rw [if_pos h]; exact ih
    · rw [if_neg h]
      unfold mapGet
      rw [if_neg h]; exact ih

theorem mapGet_mapDelete_ne (m : PendingUsers) (userId other : Nat) (h : other ≠ userId) :
    mapGet (mapDelete m userId) other = mapGet m other := by
  induction m with
  | nil => rfl
  | cons e m ih =>
    obtain ⟨k, v⟩ := e
    rw [mapDelete_cons]
    by_cases hk : k = userId
    · rw [if_pos hk, ih]
      have hko : ¬ k = other := fun h2 => h (h2 ▸ hk)
      conv_rhs => unfold mapGet
      rw [if_neg hko]
    · rw [if_neg hk]
      unfold mapGet
      rw [ih]

/-! ## Response handler -/

/-- The handler in the monitored channel, for a token `captcha_<n>` from a member
with a pending entry. -/
theorem onCallbackQuery_pending (CHANNEL_ID : Str) (gw : Gateway)
    (pendingUsers : PendingUsers) (q : CallbackQuery) (n : Int) (p : Pending)
    (hchan : numberToString q.chatId = CHANNEL_ID)
    (hdata : q.data = "captcha_".toList ++ numberToString n)
    (hp : mapGet pendingUsers q.sender.id = some p) :
    onCallbackQuery CHANNEL_ID gw pendingUsers q =
      if n = p.correctAnswer then
        (if ((awaitAll gw 0
            [Call.restrictChatMember q.chatId q.sender.id approvedPermissions,
             Call.deleteMessage q.chatId p.messageId,
             Call.sendMessage q.chatId (welcomeText q) none]).2 = true) then
          (mapDelete pendingUsers q.sender.id,
            (awaitAll gw 0
              [Call.restrictChatMember q.chatId q.sender.id approvedPermissions,
               Call.deleteMessage q.chatId p.messageId,
               Call.sendMessage q.chatId (welcomeText q) none]).1 ++
            (Call.answerCallbackQuery q.id "✅ Verified successfully!".toList ::
              (if (gw 3).isSome then []
               else [Call.answerCallbackQuery q.id "Error processing verification!".toList])))
        else
          (pendingUsers,
            (awaitAll gw 0
              [Call.restrictChatMember q.chatId q.sender.id approvedPermissions,
               Call.deleteMessage q.chatId p.messageId,
               Call.sendMessage q.chatId (welcomeText q) none]).1 ++
            [Call.answerCallbackQuery q.id "Error processing verification!".toList]))
      else
        (if ((awaitAll gw 0
            [Call.kickChatMember q.chatId q.sender.id,
             Call.unbanChatMember q.chatId q.sender.id,
             Call.deleteMessage q.chatId p.messageId]).2 = true) then
          (mapDelete pendingUsers q.sender.id,
            (awaitAll gw 0
              [Call.kickChatMember q.chatId q.sender.id,
               Call.unbanChatMember q.chatId q.sender.id,
               Call.deleteMessage q.chatId p.messageId]).1 ++
            (Call.answerCallbackQuery q.id "❌ Wrong answer! You have been removed.".toList ::
              (if (gw 3).isSome then []
               else [Call.answerCallbackQuery q.id "Error processing verification!".toList])))
        else
          (pendingUsers,
            (awaitAll gw 0
              [Call.kickChatMember q.chatId q.sender.id,
               Call.unbanChatMember q.chatId q.sender.id,
               Call.deleteMessage q.chatId p.messageId]).1 ++
            [Call.answerCallbackQuery q.id "Error processing verification!".toList])) := by
  have hstart : startsWith q.data "captcha_".toList = true := by
    rw [hdata]; exact startsWith_append _ _
  have hparse : parseInt (removeFirst "captcha_".toList q.data) = some n := by
    rw [hdata]; exact parseInt_callbackData n
  unfold onCallbackQuery
  simp only [hchan, ne_eq, not_true_eq_false, if_false, hstart, if_true, hparse, hp,
    Option.some.injEq]
  by_cases hn : n = p.correctAnswer
  · simp only [hn, if_true]
    split
    · cases h3 : gw 3 <;> simp
    · rfl
  · simp only [hn, if_false]
    split
    · cases h3 : gw 3 <;> simp
    · rfl

/-- The calls of three `await`s in a row, by the outcomes of the first three
gateway calls. -/
theorem awaitAll_three (gw : Gateway) (a b c : Call) :
    (awaitAll gw 0 [a, b, c]).1.head? = some a ∧
    ((awaitAll gw 0 [a, b, c]).2 = true ↔
      ((gw 0).isSome ∧ (gw 1).isSome ∧ (gw 2).isSome)) ∧
    ((awaitAll gw 0 [a, b, c]).2 = true → (awaitAll gw 0 [a, b, c]).1 = [a, b, c]) ∧
    ((gw 0).isSome → (awaitAll gw 0 [a, b, c]).1.take 2 = [a, b]) ∧
    (gw 0 = none → (awaitAll gw 0 [a, b, c]).1 = [a]) := by
  cases h0 : gw 0 <;> cases h1 : gw 1 <;> cases h2 : gw 2 <;> simp [awaitAll, h0, h1, h2]

/-- The handler in the monitored channel, for a captcha token from a member with a
pending entry, is one of its two branches. -/
theorem onCallbackQuery_branches (CHANNEL_ID : Str) (gw : Gateway)
    (pendingUsers : PendingUsers) (q : CallbackQuery) (p : Pending)
    (hchan : numberToString q.chatId = CHANNEL_ID)
    (hstart : startsWith q.data "captcha_".toList = true)
    (hp : mapGet pendingUsers q.sender.id = some p) :
    onCallbackQuery CHANNEL_ID gw pendingUsers q =
      if parseInt (removeFirst "captcha_".toList q.data) = some p.correctAnswer then
        correctAnswerBranch gw pendingUsers q p
      else wrongAnswerBranch gw pendingUsers q p := by
  unfold onCallbackQuery correctAnswerBranch wrongAnswerBranch
  simp only [hchan, ne_eq, not_true_eq_false, if_false, hstart, if_true, hp]

/-- The result of the branch for a correct answer, call by call: the calls stop
with the first one that rejects, which is followed by the error acknowledgment
only. -/
theorem correctAnswerBranch_eq (gw : Gateway) (pendingUsers : PendingUsers)
    (q : CallbackQuery) (p : Pending) :
    correctAnswerBranch gw pendingUsers q p =
      if (gw 0).isSome then
        if (gw 1).isSome then
          if (gw 2).isSome then
            (mapDelete pendingUsers q.sender.id,
              [Call.restrictChatMember q.chatId q.sender.id approvedPermissions,
               Call.deleteMessage q.chatId p.messageId,
               Call.sendMessage q.chatId (welcomeText q) none,
               Call.answerCallbackQuery q.id "✅ Verified successfully!".toList] ++
              (if (gw 3).isSome then []
               else [Call.answerCallbackQuery q.id "Error processing verification!".toList]))
          else
            (pendingUsers,
              [Call.restrictChatMember q.chatId q.sender.id approvedPermissions,
               Call.deleteMessage q.chatId p.messageId,
               Call.sendMessage q.chatId (welcomeText q) none,
               Call.answerCallbackQuery q.id "Error processing verification!".toList])
        else
          (pendingUsers,
            [Call.restrictChatMember q.chatId q.sender.id approvedPermissions,
             Call.deleteMessage q.chatId p.messageId,
             Call.answerCallbackQuery q.id "Error processing verification!".toList])
      else
        (pendingUsers,
          [Call.restrictChatMember q.chatId q.sender.id approvedPermissions,
           Call.answerCallbackQuery q.id "Error processing verification!".toList]) := by
  unfold correctAnswerBranch
  cases h0 : gw 0 <;> cases h1 : gw 1 <;> cases h2 : gw 2 <;> cases h3 : gw 3 <;>
    simp [awaitAll, h0, h1, h2, h3]

/-- The result of the branch for a wrong answer, call by call: the calls stop with
the first one that rejects, which is followed by the error acknowledgment only. -/
theorem wrongAnswerBranch_eq (gw : Gateway) (pendingUsers : PendingUsers)
    (q : CallbackQuery) (p : Pending) :
    wrongAnswerBranch gw pendingUsers q p =
      if (gw 0).isSome then
        if (gw 1).isSome then
          if (gw 2).isSome then
            (mapDelete pendingUsers q.sender.id,
              [Call.kickChatMember q.chatId q.sender.id,
               Call.unbanChatMember q.chatId q.sender.id,
               Call.deleteMessage q.chatId p.messageId,
               Call.answerCallbackQuery q.id
                 "❌ Wrong answer! You have been removed.".toList] ++
              (if (gw 3).isSome then []
               else [Call.answerCallbackQuery q.id "Error processing verification!".toList]))
          else
            (pendingUsers,
              [Call.kickChatMember q.chatId q.sender.id,
               Call.unbanChatMember q.chatId q.sender.id,
               Call.deleteMessage q.chatId p.messageId,
               Call.answerCallbackQuery q.id "Error processing verification!".toList])
        else
          (pendingUsers,
            [Call.kickChatMember q.chatId q.sender.id,
             Call.unbanChatMember q.chatId q.sender.id,
             Call.answerCallbackQuery q.id "Error processing verification!".toList])
      else
        (pendingUsers,
          [Call.kickChatMember q.chatId q.sender.id,
           Call.answerCallbackQuery q.id "Error processing verification!".toList]) := by
  unfold wrongAnswerBranch
  cases h0 : gw 0 <;> cases h1 : gw 1 <;> cases h2 : gw 2 <;> cases h3 : gw 3 <;>
    simp [awaitAll, h0, h1, h2, h3]

/-- The registry and the calls of `onCallbackQueryRun` are those of
`onCallbackQuery`. -/
theorem onCallbackQueryRun_result (CHANNEL_ID : Str) (gw : Gateway)
    (pendingUsers : PendingUsers) (q : CallbackQuery) :
    ((onCallbackQueryRun CHANNEL_ID gw pendingUsers q).1,
      (onCallbackQueryRun CHANNEL_ID gw pendingUsers q).2.1)
      = onCallbackQuery CHANNEL_ID gw pendingUsers q := by
  unfold onCallbackQueryRun onCallbackQuery
  by_cases hc : numberToString q.chatId = CHANNEL_ID
  · by_cases hs : startsWith q.data "captcha_".toList = true
    · cases hp : mapGet pendingUsers q.sender.id with
      | none =>
        simp only [hc, hs, hp, ne_eq, not_true_eq_false, if_false, if_true]
      | some p =>
        by_cases ha : parseInt (removeFirst "captcha_".toList q.data) = some p.correctAnswer
        · simp only [hc, hs, hp, ha, ne_eq, not_true_eq_false, if_false, if_true]
          split
          · cases h3 : gw 3 <;> rfl
          · rfl
        · simp only [hc, hs, hp, ha, ne_eq, not_true_eq_false, if_false, if_true]
          split
          · cases h3 : gw 3 <;> rfl
          · rfl
    · simp only [hc, hs, ne_eq, not_true_eq_false, if_false, Bool.false_eq_true]
  · simp only [hc, ne_eq, not_false_eq_true, if_true]

/-- How the promise settles in the branch for a wrong answer: it is rejected
exactly when the call after the first rejected call, the error acknowledgment,
rejects too. -/
theorem onCallbackQueryRun_wrong (CHANNEL_ID : Str) (gw : Gateway)
    (pendingUsers : PendingUsers) (q : CallbackQuery) (p : Pending)
    (hchan : numberToString q.chatId = CHANNEL_ID)
    (hstart : startsWith q.data "captcha_".toList = true)
    (hp : mapGet pendingUsers q.sender.id = some p)
    (hans : ¬ parseInt (removeFirst "captcha_".toList q.data) = some p.correctAnswer) :
    (onCallbackQueryRun CHANNEL_ID gw pendingUsers q).2.2 =
      if (gw 0).isSome then
        if (gw 1).isSome then
          if (gw 2).isSome then
            if (gw 3).isSome then true else (gw 4).isSome
          else (gw 3).isSome
        else (gw 2).isSome
      else (gw 1).isSome := by
  unfold onCallbackQueryRun
  simp only [hchan, hstart, hp, hans, ne_eq, not_true_eq_false, if_false, if_true]
  cases h0 : gw 0 <;> cases h1 : gw 1 <;> cases h2 : gw 2 <;> cases h3 : gw 3 <;>
    simp [awaitAll, h0, h1, h2, h3]

/-- C1 (amended): for a token `captcha_<n>` in the monitored channel from a member
with a pending entry, the registry and the whole list of calls are as follows.
If `n` is the stored answer, the `restrictChatMember` that gives the sending
rights back is issued first, then `deleteMessage`, then `sendMessage`, each only
when the call before it resolved; when all three resolve the entry is removed and
the success acknowledgment follows; when one of them rejects, no later call of
the branch is issued, the registry is left as it was and the only further call
is the error acknowledgment.  If `n` differs, the same holds with
`kickChatMember`, `unbanChatMember` and `deleteMessage`. -/
theorem onCallbackQuery_response (CHANNEL_ID : Str) (gw : Gateway)
    (pendingUsers : PendingUsers) (q : CallbackQuery) (n : Int) (p : Pending)
    (hchan : numberToString q.chatId = CHANNEL_ID)
    (hdata : q.data = "captcha_".toList ++ numberToString n)
    (hp : mapGet pendingUsers q.sender.id = some p) :
    (n = p.correctAnswer →
      onCallbackQuery CHANNEL_ID gw pendingUsers q =
        if (gw 0).isSome then
          if (gw 1).isSome then
            if (gw 2).isSome then
              (mapDelete pendingUsers q.sender.id,
                [Call.restrictChatMember q.chatId q.sender.id approvedPermissions,
                 Call.deleteMessage q.chatId p.messageId,
                 Call.sendMessage q.chatId (welcomeText q) none,
                 Call.answerCallbackQuery q.id "✅ Verified successfully!".toList] ++
                (if (gw 3).isSome then []
                 else [Call.answerCallbackQuery q.id
                   "Error processing verification!".toList]))
            else
              (pendingUsers,
                [Call.restrictChatMember q.chatId q.sender.id approvedPermissions,
                 Call.deleteMessage q.chatId p.messageId,
                 Call.sendMessage q.chatId (welcomeText q) none,
                 Call.answerCallbackQuery q.id "Error processing verification!".toList])
          else
            (pendingUsers,
              [Call.restrictChatMember q.chatId q.sender.id approvedPermissions,
               Call.deleteMessage q.chatId p.messageId,
               Call.answerCallbackQuery q.id "Error processing verification!".toList])
        else
          (pendingUsers,
            [Call.restrictChatMember q.chatId q.sender.id approvedPermissions,
             Call.answerCallbackQuery q.id "Error processing verification!".toList])) ∧
    (n ≠ p.correctAnswer →
      onCallbackQuery CHANNEL_ID gw pendingUsers q =
        if (gw 0).isSome then
          if (gw 1).isSome then
            if (gw 2).isSome then
              (mapDelete pendingUsers q.sender.id,
                [Call.kickChatMember q.chatId q.sender.id,
                 Call.unbanChatMember q.chatId q.sender.id,
                 Call.deleteMessage q.chatId p.messageId,
                 Call.answerCallbackQuery q.id
                   "❌ Wrong answer! You have been removed.".toList] ++
                (if (gw 3).isSome then []
                 else [Call.answerCallbackQuery q.id
                   "Error processing verification!".toList]))
            else
              (pendingUsers,
                [Call.kickChatMember q.chatId q.sender.id,
                 Call.unbanChatMember q.chatId q.sender.id,
                 Call.deleteMessage q.chatId p.messageId,
                 Call.answerCallbackQuery q.id "Error processing verification!".toList])
          else
            (pendingUsers,
              [Call.kickChatMember q.chatId q.sender.id,
               Call.unbanChatMember q.chatId q.sender.id,
               Call.answerCallbackQuery q.id "Error processing verification!".toList])
        else
          (pendingUsers,
            [Call.kickChatMember q.chatId q.sender.id,
             Call.answerCallbackQuery q.id "Error processing verification!".toList])) ∧
    mapGet (mapDelete pendingUsers q.sender.id) q.sender.id = none ∧
    mapGet pendingUsers q.sender.id = some p := by
  have hstart : startsWith q.data "captcha_".toList = true := by
    rw [hdata]; exact startsWith_append _ _
  have hparse : parseInt (removeFirst "captcha_".toList q.data) = some n := by
    rw [hdata]; exact parseInt_callbackData n
  rw [onCallbackQuery_branches CHANNEL_ID gw pendingUsers q p hchan hstart hp, hparse]
  refine ⟨?_, ?_, mapGet_mapDelete_self _ _, hp⟩
  · intro hn
    rw [if_pos (congrArg some hn)]
    exact correctAnswerBranch_eq gw pendingUsers q p
  · intro hn
    rw [if_neg (fun h => hn (Option.some.inj h))]
    exact wrongAnswerBranch_eq gw pendingUsers q p

/-- C1 (witness): member 7 presses `captcha_5` while 5 is stored and every
gateway call resolves; the entry is gone afterwards. -/
theorem onCallbackQuery_response_witness :
    onCallbackQuery "-1001".toList (fun _ => some 0)
      [(7, { correctAnswer := 5, messageId := 40, joinTime := 0, username := none })]
      { id := "q1".toList, chatId := -1001,
        sender := { id := 7, is_bot := false, first_name := none, last_name := none,
                    username := none },
        data := "captcha_5".toList }
      = ([],
         [Call.restrictChatMember (-1001) 7 approvedPermissions,
          Call.deleteMessage (-1001) 40,
          Call.sendMessage (-1001)
            "✅ Welcome undefined! You have been verified and can now participate in the channel.".toList
            none,
          Call.answerCallbackQuery "q1".toList "✅ Verified successfully!".toList]) :=
  ((onCallbackQuery_response "-1001".toList (fun _ => some 0)
      [(7, { correctAnswer := 5, messageId := 40, joinTime := 0, username := none })]
      { id := "q1".toList, chatId := -1001,
        sender := { id := 7, is_bot := false, first_name := none, last_name := none,
                    username := none },
        data := "captcha_5".toList }
      5 { correctAnswer := 5, messageId := 40, joinTime := 0, username := none }
      (by decide) (by decide) (by decide)).1 rfl).trans (by decide)

/-- C1 (counterexample): 5 is stored for member 7.  With the correct token
`captcha_5` and a `deleteMessage` that rejects, and with the wrong token
`captcha_6` and a `kickChatMember` that rejects, the entry of member 7 is still
in the registry after the handler has run; in the second run no unban is
issued. -/
theorem onCallbackQuery_entry_survives_rejection :
    mapGet (onCallbackQuery "-1001".toList (fun k => if k = 1 then none else some 0)
      [(7, { correctAnswer := 5, messageId := 40, joinTime := 0, username := none })]
      { id := "q1".toList, chatId := -1001,
        sender := { id := 7, is_bot := false, first_name := none, last_name := none,
                    username := none },
        data := "captcha_5".toList }).1 7
      = some { correctAnswer := 5, messageId := 40, joinTime := 0, username := none } ∧
    onCallbackQuery "-1001".toList (fun _ => none)
      [(7, { correctAnswer := 5, messageId := 40, joinTime := 0, username := none })]
      { id := "q1".toList, chatId := -1001,
        sender := { id := 7, is_bot := false, first_name := none, last_name := none,
                    username := none },
        data := "captcha_6".toList }
      = ([(7, { correctAnswer := 5, messageId := 40, joinTime := 0, username := none })],
         [Call.kickChatMember (-1001) 7,
          Call.answerCallbackQuery "q1".toList "Error processing verification!".toList]) := by
  decide

/-- C2: a response from a member without a pending entry leaves the registry as it
is; in the monitored channel, for a captcha token, the one call issued is the
acknowledgment `Verification expired!`, and otherwise no call is issued. -/
theorem onCallbackQuery_no_entry (CHANNEL_ID : Str) (gw : Gateway)
    (pendingUsers : PendingUsers) (q : CallbackQuery)
    (h : mapGet pendingUsers q.sender.id = none) :
    (onCallbackQuery CHANNEL_ID gw pendingUsers q).1 = pendingUsers ∧
    (onCallbackQuery CHANNEL_ID gw pendingUsers q).2 =
      (if numberToString q.chatId = CHANNEL_ID ∧ startsWith q.data "captcha_".toList = true
       then [Call.answerCallbackQuery q.id "Verification expired!".toList] else []) ∧
    (∀ c ∈ (onCallbackQuery CHANNEL_ID gw pendingUsers q).2,
      c = Call.answerCallbackQuery q.id "Verification expired!".toList) := by
  have key : onCallbackQuery CHANNEL_ID gw pendingUsers q =
      (pendingUsers,
        if numberToString q.chatId = CHANNEL_ID ∧ startsWith q.data "captcha_".toList = true
        then [Call.answerCallbackQuery q.id "Verification expired!".toList] else []) := by
    unfold onCallbackQuery
    by_cases hc : numberToString q.chatId = CHANNEL_ID
    · by_cases hs : startsWith q.data "captcha_".toList = true
      · simp only [hc, ne_eq, not_true_eq_false, if_false, hs, if_true, h, and_self]
      · simp only [hc, ne_eq, not_true_eq_false, if_false, hs, Bool.false_eq_true, and_false]
    · simp only [ne_eq, hc, not_false_eq_true, if_true, false_and, if_false]
  rw [key]
  refine ⟨rfl, rfl, ?_⟩
  intro c hc
  simp only at hc
  split at hc
  · exact List.mem_singleton.1 hc
  · exact absurd hc (List.not_mem_nil c)

/-- C2 (witness): member 8 has no entry and presses a captcha button. -/
theorem onCallbackQuery_no_entry_witness :
    (onCallbackQuery "-1001".toList (fun _ => some 0)
      [(7, { correctAnswer := 5, messageId := 40, joinTime := 0, username := none })]
      { id := "q1".toList, chatId := -1001,
        sender := { id := 8, is_bot := false, first_name := none, last_name := none,
                    username := none },
        data := "captcha_5".toList }).1
      = [(7, { correctAnswer := 5, messageId := 40, joinTime := 0, username := none })] :=
  (onCallbackQuery_no_entry "-1001".toList (fun _ => some 0)
      [(7, { correctAnswer := 5, messageId := 40, joinTime := 0, username := none })]
      { id := "q1".toList, chatId := -1001,
        sender := { id := 8, is_bot := false, first_name := none, last_name := none,
                    username := none },
        data := "captcha_5".toList } (by decide)).1

/-- C8: the button made for an answer `v` shows the decimal text of `v` and carries
`captcha_` followed by that text; the decoding of the handler gives `v` back;
every row of a keyboard is such a button; and a press of the button for the
stored answer takes the branch for a correct answer, whose first call gives the
sending rights back, without any kick. -/
theorem callbackData_roundtrip (v : Int) :
    (answerButton v).text = numberToString v ∧
    (answerButton v).callback_data = "captcha_".toList ++ numberToString v ∧
    parseInt (removeFirst "captcha_".toList (answerButton v).callback_data) = some v ∧
    (∀ (c : Int) (draws : List (Fin 20)) (cmps : Nat → Bool) (kb : List (List Button)),
      createCaptchaKeyboard c draws cmps = some kb →
        ∀ row ∈ kb, ∃ a : Int, row = [answerButton a]) ∧
    (∀ (CHANNEL_ID : Str) (gw : Gateway) (pendingUsers : PendingUsers) (q : CallbackQuery)
        (p : Pending),
      numberToString q.chatId = CHANNEL_ID → q.data = (answerButton v).callback_data →
      mapGet pendingUsers q.sender.id = some p → p.correctAnswer = v →
        (onCallbackQuery CHANNEL_ID gw pendingUsers q).2.head?
          = some (Call.restrictChatMember q.chatId q.sender.id approvedPermissions) ∧
        Call.kickChatMember q.chatId q.sender.id
          ∉ (onCallbackQuery CHANNEL_ID gw pendingUsers q).2) := by
  refine ⟨rfl, rfl, parseInt_callbackData v, ?_, ?_⟩
  · intro c draws cmps kb h row hrow
    obtain ⟨vs, _, hkb⟩ := createCaptchaKeyboard_eq c draws cmps kb h
    rw [hkb, List.mem_map] at hrow
    obtain ⟨a, _, ha⟩ := hrow
    exact ⟨a, ha.symm⟩
  · intro CHANNEL_ID gw pendingUsers q p hchan hdata hp hv
    rw [onCallbackQuery_pending CHANNEL_ID gw pendingUsers q v p hchan hdata hp,
      if_pos hv.symm]
    cases h0 : gw 0 <;> cases h1 : gw 1 <;> cases h2 : gw 2 <;> cases h3 : gw 3 <;>
      simp [awaitAll, h0, h1, h2, h3]

/-! ## Arrival handler and deadline -/

theorem awaitAll_two (gw : Gateway) (k : Nat) (a b : Call) :
    (awaitAll gw k [a, b]).1 = a :: (if (gw k).isSome then [b] else []) := by
  cases h0 : gw k <;> cases h1 : gw (k + 1) <;> simp [awaitAll, h0, h1]

/-- C9 (amended): for a member who is not automated and fails
`passesBasicValidation`, the loop body issues `kickChatMember`, followed by
`unbanChatMember` when the kick resolves and by nothing when it rejects; whatever
the gateway does, the registry is left as it was, no message is sent and no
deadline is armed.  The same holds of the handler run on a message of the
monitored channel with this one member.  A member with the handle
`TelegramSupport` fails the validation at every clock value. -/
theorem handleNewMember_rejected (gw : Gateway) (chatId : Int) (inp : Inputs)
    (st : Arrival) (user : User) (hbot : user.is_bot = false)
    (hval : passesBasicValidation inp.nowCheck user = false) :
    handleNewMember gw chatId inp st user =
      some { pendingUsers := st.pendingUsers,
             calls := st.calls ++ (Call.kickChatMember chatId user.id ::
               (if (gw st.calls.length).isSome then [Call.unbanChatMember chatId user.id]
                else [])),
             timers := st.timers } ∧
    (∀ pendingUsers : PendingUsers,
      onNewChatMembers (numberToString chatId) gw (fun _ => inp) pendingUsers
          { chatId := chatId, new_chat_members := [user] } =
        some { pendingUsers := pendingUsers,
               calls := Call.kickChatMember chatId user.id ::
                 (if (gw 0).isSome then [Call.unbanChatMember chatId user.id] else []),
               timers := [] }) ∧
    (∀ (now : Nat) (u : User), u.username = some "TelegramSupport".toList →
      passesBasicValidation now u = false) := by
  have hbody : ∀ st : Arrival, handleNewMember gw chatId inp st user =
      some { pendingUsers := st.pendingUsers,
             calls := st.calls ++ (Call.kickChatMember chatId user.id ::
               (if (gw st.calls.length).isSome then [Call.unbanChatMember chatId user.id]
                else [])),
             timers := st.timers } := by
    intro st
    unfold handleNewMember
    simp only [hbot, Bool.false_eq_true, if_false, hval, Bool.not_false, if_true,
      awaitAll_two]
  refine ⟨hbody st, ?_, ?_⟩
  · intro pendingUsers
    unfold onNewChatMembers
    simp only [ne_eq, not_true_eq_false, if_false, handleNewMembers, hbody,
      List.length_nil, List.nil_append]
  · intro now u hu
    have h : isValidUsername u.username = false := by
      rw [hu]; decide
    unfold passesBasicValidation
    simp only [h, Bool.false_and]

/-- C9 (witness): member 42 with the handle `TelegramSupport` joins and every
gateway call resolves. -/
theorem handleNewMember_rejected_witness :
    handleNewMember (fun _ => some 0) (-1001)
      { nowCheck := 0, nowStore := 0, r1 := 0, r2 := 0, r3 := 0, decoys := [],
        cmps := fun _ => false }
      { pendingUsers := [], calls := [], timers := [] }
      { id := 42, is_bot := false, first_name := some "Telegram".toList, last_name := none,
        username := some "TelegramSupport".toList }
      = some { pendingUsers := [],
               calls := [Call.kickChatMember (-1001) 42, Call.unbanChatMember (-1001) 42],
               timers := [] } :=
  (handleNewMember_rejected (fun _ => some 0) (-1001)
      { nowCheck := 0, nowStore := 0, r1 := 0, r2 := 0, r3 := 0, decoys := [],
        cmps := fun _ => false }
      { pendingUsers := [], calls := [], timers := [] }
      { id := 42, is_bot := false, first_name := some "Telegram".toList, last_name := none,
        username := some "TelegramSupport".toList }
      rfl (by decide)).1

/-- C9 (counterexample): member 42 with the handle `TelegramSupport` joins the
monitored channel and `kickChatMember` rejects; the handler issues the kick and
no unban. -/
theorem onNewChatMembers_kick_rejected :
    onNewChatMembers "-1001".toList (fun _ => none)
      (fun _ => { nowCheck := 0, nowStore := 0, r1 := 0, r2 := 0, r3 := 0, decoys := [],
                  cmps := fun _ => false })
      []
      { chatId := -1001,
        new_chat_members :=
          [{ id := 42, is_bot := false, first_name := some "Telegram".toList,
             last_name := none, username := some "TelegramSupport".toList }] }
      = some { pendingUsers := [], calls := [Call.kickChatMember (-1001) 42], timers := [] } := by
  decide

/-- C10 (amended): when the deadline fires and the registry has an entry for the
member, `kickChatMember` is issued; when kick, unban and delete-message all
resolve, these three calls are issued in this order for the challenge message of
the deadline and the entry is absent afterwards; when one of them rejects, the
calls after it are not issued and the registry is left as it was.  When the
registry has no entry for the member, no call is issued and the registry is left
as it was. -/
theorem onDeadline_spec (gw : Gateway) (pendingUsers : PendingUsers) (t : Timer) :
    (mapHas pendingUsers t.user.id = true →
      (onDeadline gw pendingUsers t).2.head? = some (Call.kickChatMember t.chatId t.user.id) ∧
      ((gw 0).isSome ∧ (gw 1).isSome ∧ (gw 2).isSome →
        (onDeadline gw pendingUsers t).2 =
          [Call.kickChatMember t.chatId t.user.id, Call.unbanChatMember t.chatId t.user.id,
           Call.deleteMessage t.chatId t.messageId] ∧
        (onDeadline gw pendingUsers t).1 = mapDelete pendingUsers t.user.id ∧
        mapHas (onDeadline gw pendingUsers t).1 t.user.id = false) ∧
      (¬ ((gw 0).isSome ∧ (gw 1).isSome ∧ (gw 2).isSome) →
        (onDeadline gw pendingUsers t).1 = pendingUsers ∧
        (onDeadline gw pendingUsers t).2 =
          Call.kickChatMember t.chatId t.user.id ::
            (if (gw 0).isSome then
              Call.unbanChatMember t.chatId t.user.id ::
                (if (gw 1).isSome then [Call.deleteMessage t.chatId t.messageId] else [])
             else []))) ∧
    (mapHas pendingUsers t.user.id = false →
      onDeadline gw pendingUsers t = (pendingUsers, [])) := by
  constructor
  · intro h
    unfold onDeadline
    rw [if_pos h]
    cases h0 : gw 0 <;> cases h1 : gw 1 <;> cases h2 : gw 2 <;>
      simp [awaitAll, h0, h1, h2, mapHas, mapGet_mapDelete_self]
  · intro h
    unfold onDeadline
    simp only [h, Bool.false_eq_true, if_false]

/-- C10 (counterexample): the deadline of member 7 fires while the entry is
present and `deleteMessage` rejects; kick and unban have been issued and the
entry is still in the registry. -/
theorem onDeadline_entry_survives_rejection :
    onDeadline (fun k => if k = 2 then none else some 0)
      [(7, { correctAnswer := 5, messageId := 40, joinTime := 0, username := none })]
      { chatId := -1001,
        user := { id := 7, is_bot := false, first_name := none, last_name := none,
                  username := none },
        messageId := 40, delay := 120000 }
      = ([(7, { correctAnswer := 5, messageId := 40, joinTime := 0, username := none })],
         [Call.kickChatMember (-1001) 7, Call.unbanChatMember (-1001) 7,
          Call.deleteMessage (-1001) 40]) := by
  decide

/-! ## Response handler: rejected calls and unreadable tokens -/

/-- The registry after the branch for a correct answer, by the outcomes of its
first three calls. -/
theorem correctAnswerBranch_spec (gw : Gateway) (pendingUsers : PendingUsers)
    (q : CallbackQuery) (p : Pending) :
    ((gw 0).isSome ∧ (gw 1).isSome ∧ (gw 2).isSome →
      (correctAnswerBranch gw pendingUsers q p).1 = mapDelete pendingUsers q.sender.id) ∧
    (¬ ((gw 0).isSome ∧ (gw 1).isSome ∧ (gw 2).isSome) →
      (correctAnswerBranch gw pendingUsers q p).1 = pendingUsers ∧
      (correctAnswerBranch gw pendingUsers q p).2.getLast?
        = some (Call.answerCallbackQuery q.id "Error processing verification!".toList)) := by
  unfold correctAnswerBranch
  cases h0 : gw 0 <;> cases h1 : gw 1 <;> cases h2 : gw 2 <;> cases h3 : gw 3 <;>
    simp [awaitAll, h0, h1, h2, h3]

/-- The registry and the calls of the branch for a wrong answer, by the outcomes
of its first three calls. -/
theorem wrongAnswerBranch_spec (gw : Gateway) (pendingUsers : PendingUsers)
    (q : CallbackQuery) (p : Pending) :
    (wrongAnswerBranch gw pendingUsers q p).2.head?
      = some (Call.kickChatMember q.chatId q.sender.id) ∧
    (∀ perms, Call.restrictChatMember q.chatId q.sender.id perms
      ∉ (wrongAnswerBranch gw pendingUsers q p).2) ∧
    ((gw 0).isSome ∧ (gw 1).isSome ∧ (gw 2).isSome →
      (wrongAnswerBranch gw pendingUsers q p).1 = mapDelete pendingUsers q.sender.id ∧
      (wrongAnswerBranch gw pendingUsers q p).2.take 3 =
        [Call.kickChatMember q.chatId q.sender.id, Call.unbanChatMember q.chatId q.sender.id,
         Call.deleteMessage q.chatId p.messageId]) ∧
    (¬ ((gw 0).isSome ∧ (gw 1).isSome ∧ (gw 2).isSome) →
      (wrongAnswerBranch gw pendingUsers q p).1 = pendingUsers ∧
      (wrongAnswerBranch gw pendingUsers q p).2.getLast?
        = some (Call.answerCallbackQuery q.id "Error processing verification!".toList)) ∧
    (gw 0 = none →
      (wrongAnswerBranch gw pendingUsers q p).2 =
        [Call.kickChatMember q.chatId q.sender.id,
         Call.answerCallbackQuery q.id "Error processing verification!".toList]) := by
  unfold wrongAnswerBranch
  cases h0 : gw 0 <;> cases h1 : gw 1 <;> cases h2 : gw 2 <;> cases h3 : gw 3 <;>
    simp [awaitAll, h0, h1, h2, h3]

/-- C11 (amended): for a captcha response in the monitored channel from a member
with a pending entry, when one of the three gateway calls of the branch taken
(restrict, delete message, send confirmation; or kick, unban, delete message)
rejects, the handler skips the rest of the branch: no later call of the branch
is issued, the only further call is the error acknowledgment, and the registry
is left as it was, so the entry of the member stays.  The entry is removed
exactly when all three calls resolve. -/
theorem onCallbackQuery_rejection (CHANNEL_ID : Str) (gw : Gateway)
    (pendingUsers : PendingUsers) (q : CallbackQuery) (p : Pending)
    (hchan : numberToString q.chatId = CHANNEL_ID)
    (hstart : startsWith q.data "captcha_".toList = true)
    (hp : mapGet pendingUsers q.sender.id = some p) :
    (gw 0 = none →
      onCallbackQuery CHANNEL_ID gw pendingUsers q =
        (pendingUsers,
          [if parseInt (removeFirst "captcha_".toList q.data) = some p.correctAnswer
             then Call.restrictChatMember q.chatId q.sender.id approvedPermissions
             else Call.kickChatMember q.chatId q.sender.id,
           Call.answerCallbackQuery q.id "Error processing verification!".toList])) ∧
    ((gw 0).isSome → gw 1 = none →
      onCallbackQuery CHANNEL_ID gw pendingUsers q =
        (pendingUsers,
          [if parseInt (removeFirst "captcha_".toList q.data) = some p.correctAnswer
             then Call.restrictChatMember q.chatId q.sender.id approvedPermissions
             else Call.kickChatMember q.chatId q.sender.id,
           if parseInt (removeFirst "captcha_".toList q.data) = some p.correctAnswer
             then Call.deleteMessage q.chatId p.messageId
             else Call.unbanChatMember q.chatId q.sender.id,
           Call.answerCallbackQuery q.id "Error processing verification!".toList])) ∧
    ((gw 0).isSome → (gw 1).isSome → gw 2 = none →
      onCallbackQuery CHANNEL_ID gw pendingUsers q =
        (pendingUsers,
          [if parseInt (removeFirst "captcha_".toList q.data) = some p.correctAnswer
             then Call.restrictChatMember q.chatId q.sender.id approvedPermissions
             else Call.kickChatMember q.chatId q.sender.id,
           if parseInt (removeFirst "captcha_".toList q.data) = some p.correctAnswer
             then Call.deleteMessage q.chatId p.messageId
             else Call.unbanChatMember q.chatId q.sender.id,
           if parseInt (removeFirst "captcha_".toList q.data) = some p.correctAnswer
             then Call.sendMessage q.chatId (welcomeText q) none
             else Call.deleteMessage q.chatId p.messageId,
           Call.answerCallbackQuery q.id "Error processing verification!".toList])) ∧
    ((gw 0).isSome → (gw 1).isSome → (gw 2).isSome →
      (onCallbackQuery CHANNEL_ID gw pendingUsers q).1 = mapDelete pendingUsers q.sender.id ∧
      mapGet (onCallbackQuery CHANNEL_ID gw pendingUsers q).1 q.sender.id = none) ∧
    (¬ ((gw 0).isSome ∧ (gw 1).isSome ∧ (gw 2).isSome) →
      (onCallbackQuery CHANNEL_ID gw pendingUsers q).1 = pendingUsers ∧
      mapGet (onCallbackQuery CHANNEL_ID gw pendingUsers q).1 q.sender.id = some p ∧
      (onCallbackQuery CHANNEL_ID gw pendingUsers q).2.getLast?
        = some (Call.answerCallbackQuery q.id "Error processing verification!".toList)) := by
  rw [onCallbackQuery_branches CHANNEL_ID gw pendingUsers q p hchan hstart hp]
  have hdel := mapGet_mapDelete_self pendingUsers q.sender.id
  by_cases hans : parseInt (removeFirst "captcha_".toList q.data) = some p.correctAnswer
  · simp only [hans, if_true]
    rw [correctAnswerBranch_eq]
    cases h0 : gw 0 <;> cases h1 : gw 1 <;> cases h2 : gw 2 <;> simp [hp, hdel]
  · simp only [hans, if_false]
    rw [wrongAnswerBranch_eq]
    cases h0 : gw 0 <;> cases h1 : gw 1 <;> cases h2 : gw 2 <;> simp [hp, hdel]

/-- C11 (witness): member 7 presses the right button and `restrictChatMember`
rejects; nothing but the error acknowledgment follows and the entry stays. -/
theorem onCallbackQuery_rejection_witness :
    onCallbackQuery "-1001".toList (fun k => if k = 0 then none else some 0)
      [(7, { correctAnswer := 5, messageId := 40, joinTime := 0, username := none })]
      { id := "q1".toList, chatId := -1001,
        sender := { id := 7, is_bot := false, first_name := none, last_name := none,
                    username := none },
        data := "captcha_5".toList }
      = ([(7, { correctAnswer := 5, messageId := 40, joinTime := 0, username := none })],
         [Call.restrictChatMember (-1001) 7 approvedPermissions,
          Call.answerCallbackQuery "q1".toList "Error processing verification!".toList]) :=
  ((onCallbackQuery_rejection "-1001".toList (fun k => if k = 0 then none else some 0)
      [(7, { correctAnswer := 5, messageId := 40, joinTime := 0, username := none })]
      { id := "q1".toList, chatId := -1001,
        sender := { id := 7, is_bot := false, first_name := none, last_name := none,
                    username := none },
        data := "captcha_5".toList }
      { correctAnswer := 5, messageId := 40, joinTime := 0, username := none }
      (by decide) (by decide) (by decide)).1 (by decide)).trans (by decide)

/-- C11 (counterexample): 5 is stored for member 7 with challenge message 40.
After the right answer with a `sendMessage` that rejects, the rights have been
given back and message 40 has been deleted, and the entry is still there; after
a wrong answer with a `deleteMessage` that rejects, the member has been kicked
and unbanned, and the entry is still there. -/
theorem onCallbackQuery_stale_entry :
    onCallbackQuery "-1001".toList (fun k => if k = 2 then none else some 0)
      [(7, { correctAnswer := 5, messageId := 40, joinTime := 0, username := none })]
      { id := "q1".toList, chatId := -1001,
        sender := { id := 7, is_bot := false, first_name := some "Ann".toList,
                    last_name := none, username := none },
        data := "captcha_5".toList }
      = ([(7, { correctAnswer := 5, messageId := 40, joinTime := 0, username := none })],
         [Call.restrictChatMember (-1001) 7 approvedPermissions,
          Call.deleteMessage (-1001) 40,
          Call.sendMessage (-1001)
            "✅ Welcome Ann! You have been verified and can now participate in the channel.".toList
            none,
          Call.answerCallbackQuery "q1".toList "Error processing verification!".toList]) ∧
    onCallbackQuery "-1001".toList (fun k => if k = 2 then none else some 0)
      [(7, { correctAnswer := 5, messageId := 40, joinTime := 0, username := none })]
      { id := "q1".toList, chatId := -1001,
        sender := { id := 7, is_bot := false, first_name := some "Ann".toList,
                    last_name := none, username := none },
        data := "captcha_4".toList }
      = ([(7, { correctAnswer := 5, messageId := 40, joinTime := 0, username := none })],
         [Call.kickChatMember (-1001) 7, Call.unbanChatMember (-1001) 7,
          Call.deleteMessage (-1001) 40,
          Call.answerCallbackQuery "q1".toList "Error processing verification!".toList]) := by
  decide

/-- C13 (amended): a token `captcha_` followed by text that `parseInt` cannot read,
from a member with a pending entry, raises no exception by itself and takes the
branch for a wrong answer whatever the stored answer is: no `restrictChatMember`
is issued, and registry and calls are those of a wrong answer, call by call
(kick, unban, delete message, each only when the call before it resolved; the
entry is removed when all three resolve; after a rejected call only the error
acknowledgment follows and the registry is left as it was).  The promise of the
handler is fulfilled when every call resolves; it is rejected exactly when the
acknowledgment awaited in the `catch` block, the call after the first rejected
call, rejects too. -/
theorem onCallbackQuery_unreadable (CHANNEL_ID : Str) (gw : Gateway)
    (pendingUsers : PendingUsers) (q : CallbackQuery) (p : Pending) (s : Str)
    (hchan : numberToString q.chatId = CHANNEL_ID)
    (hdata : q.data = "captcha_".toList ++ s)
    (hs : parseInt s = none)
    (hp : mapGet pendingUsers q.sender.id = some p) :
    onCallbackQuery CHANNEL_ID gw pendingUsers q =
      (if (gw 0).isSome then
        if (gw 1).isSome then
          if (gw 2).isSome then
            (mapDelete pendingUsers q.sender.id,
              [Call.kickChatMember q.chatId q.sender.id,
               Call.unbanChatMember q.chatId q.sender.id,
               Call.deleteMessage q.chatId p.messageId,
               Call.answerCallbackQuery q.id
                 "❌ Wrong answer! You have been removed.".toList] ++
              (if (gw 3).isSome then []
               else [Call.answerCallbackQuery q.id "Error processing verification!".toList]))
          else
            (pendingUsers,
              [Call.kickChatMember q.chatId q.sender.id,
               Call.unbanChatMember q.chatId q.sender.id,
               Call.deleteMessage q.chatId p.messageId,
               Call.answerCallbackQuery q.id "Error processing verification!".toList])
        else
          (pendingUsers,
            [Call.kickChatMember q.chatId q.sender.id,
             Call.unbanChatMember q.chatId q.sender.id,
             Call.answerCallbackQuery q.id "Error processing verification!".toList])
      else
        (pendingUsers,
          [Call.kickChatMember q.chatId q.sender.id,
           Call.answerCallbackQuery q.id "Error processing verification!".toList])) ∧
    ((onCallbackQueryRun CHANNEL_ID gw pendingUsers q).1,
      (onCallbackQueryRun CHANNEL_ID gw pendingUsers q).2.1)
      = onCallbackQuery CHANNEL_ID gw pendingUsers q ∧
    (onCallbackQueryRun CHANNEL_ID gw pendingUsers q).2.2 =
      (if (gw 0).isSome then
        if (gw 1).isSome then
          if (gw 2).isSome then
            if (gw 3).isSome then true else (gw 4).isSome
          else (gw 3).isSome
        else (gw 2).isSome
      else (gw 1).isSome) ∧
    (∀ perms, Call.restrictChatMember q.chatId q.sender.id perms
      ∉ (onCallbackQuery CHANNEL_ID gw pendingUsers q).2) ∧
    mapGet (mapDelete pendingUsers q.sender.id) q.sender.id = none := by
  have hstart : startsWith q.data "captcha_".toList = true := by
    rw [hdata]; exact startsWith_append _ _
  have hparse : parseInt (removeFirst "captcha_".toList q.data) = none := by
    have h : "captcha_".toList = 'c' :: "aptcha_".toList := by decide
    rw [hdata, h, removeFirst_append]
    exact hs
  have hans : ¬ parseInt (removeFirst "captcha_".toList q.data) = some p.correctAnswer := by
    rw [hparse]
    exact fun h => Option.noConfusion h
  have hbr : onCallbackQuery CHANNEL_ID gw pendingUsers q
      = wrongAnswerBranch gw pendingUsers q p := by
    rw [onCallbackQuery_branches CHANNEL_ID gw pendingUsers q p hchan hstart hp]
    exact if_neg hans
  refine ⟨?_, onCallbackQueryRun_result CHANNEL_ID gw pendingUsers q,
    onCallbackQueryRun_wrong CHANNEL_ID gw pendingUsers q p hchan hstart hp hans, ?_,
    mapGet_mapDelete_self _ _⟩
  · rw [hbr]
    exact wrongAnswerBranch_eq gw pendingUsers q p
  · rw [hbr]
    exact (wrongAnswerBranch_spec gw pendingUsers q p).2.1

/-- C13 (witness): the token `captcha_abc` from member 7, every call resolving. -/
theorem onCallbackQuery_unreadable_witness :
    onCallbackQuery "-1001".toList (fun _ => some 0)
      [(7, { correctAnswer := 5, messageId := 40, joinTime := 0, username := none })]
      { id := "q1".toList, chatId := -1001,
        sender := { id := 7, is_bot := false, first_name := none, last_name := none,
                    username := none },
        data := "captcha_abc".toList }
      = ([],
         [Call.kickChatMember (-1001) 7, Call.unbanChatMember (-1001) 7,
          Call.deleteMessage (-1001) 40,
          Call.answerCallbackQuery "q1".toList
            "❌ Wrong answer! You have been removed.".toList]) :=
  (onCallbackQuery_unreadable "-1001".toList (fun _ => some 0)
      [(7, { correctAnswer := 5, messageId := 40, joinTime := 0, username := none })]
      { id := "q1".toList, chatId := -1001,
        sender := { id := 7, is_bot := false, first_name := none, last_name := none,
                    username := none },
        data := "captcha_abc".toList }
      { correctAnswer := 5, messageId := 40, joinTime := 0, username := none }
      "abc".toList (by decide) (by decide) (by decide) (by decide)).1.trans (by decide)

/-- C13 (counterexample): the token `captcha_abc` from member 7 while every
gateway call rejects: the kick is the only removal call issued, no unban and no
message deletion follow, the entry stays, and the promise of the handler is
rejected because the error acknowledgment rejects. -/
theorem onCallbackQuery_unreadable_kick_rejected :
    onCallbackQueryRun "-1001".toList (fun _ => none)
      [(7, { correctAnswer := 5, messageId := 40, joinTime := 0, username := none })]
      { id := "q1".toList, chatId := -1001,
        sender := { id := 7, is_bot := false, first_name := none, last_name := none,
                    username := none },
        data := "captcha_abc".toList }
      = ([(7, { correctAnswer := 5, messageId := 40, joinTime := 0, username := none })],
         [Call.kickChatMember (-1001) 7,
          Call.answerCallbackQuery "q1".toList "Error processing verification!".toList],
         false) := by
  decide

/-! ## Sweeper -/

theorem mapDelete_eq_filter (m : PendingUsers) (userId : Nat) :
    mapDelete m userId = m.filter (fun e => !decide (e.1 = userId)) := by
  unfold mapDelete
  congr 1
  funext e
  simp

/-- The loop of the sweeper keeps the entries whose key is not the key of a
visited entry that is too old. -/
theorem sweepLoop_eq_filter (now : Nat) (entries : List (Nat × Pending)) (m : PendingUsers) :
    sweepLoop now entries m =
      m.filter (fun e => !(entries.any (fun v => decide (v.1 = e.1) && expired now v.2))) := by
  induction entries generalizing m with
  | nil => simp [sweepLoop]
  | cons v rest ih =>
    obtain ⟨k, d⟩ := v
    unfold sweepLoop
    by_cases hx : (now : Int) - (d.joinTime : Int) > 120000
    · rw [if_pos hx, ih, mapDelete_eq_filter, List.filter_filter]
      apply List.filter_congr
      intro e _
      have hd : expired now d = true := by simp [expired, hx]
      simp only [List.any_cons, hd, Bool.and_true, Bool.not_or]
      by_cases hk : e.1 = k
      · simp [hk]
      · have hk2 : ¬ k = e.1 := fun h => hk h.symm
        simp [hk, hk2]
    · rw [if_neg hx, ih]
      apply List.filter_congr
      intro e _
      have hd : expired now d = false := by simp [expired, hx]
      simp only [List.any_cons, hd, Bool.and_false, Bool.false_or]

theorem sweep_eq_filter (now : Nat) (m : PendingUsers) (h : WellFormed m) :
    sweep now m = m.filter (fun e => !expired now e.2) := by
  unfold sweep
  rw [sweepLoop_eq_filter]
  apply List.filter_congr
  intro e he
  congr 1
  rw [Bool.eq_iff_iff, List.any_eq_true]
  constructor
  · rintro ⟨v, hv, hcond⟩
    rw [Bool.and_eq_true, decide_eq_true_iff] at hcond
    have hve : v = e := List.inj_on_of_nodup_map h hv he hcond.1
    rw [← hve]
    exact hcond.2
  · intro hx
    exact ⟨e, he, by simp [hx]⟩

theorem wellFormed_filter (m : PendingUsers) (f : Nat × Pending → Bool) (h : WellFormed m) :
    WellFormed (m.filter f) := by
  unfold WellFormed at h ⊢
  exact h.sublist ((List.filter_sublist m).map Prod.fst)

/-- C14: on a registry with one entry per key, one sweep at clock value `now`
removes exactly the entries with `now - joinTime > 120000` and keeps every other
entry as it is, in place; it issues no gateway call; a second sweep at the same
clock value changes nothing. -/
theorem sweep_spec (now : Nat) (m : PendingUsers) (h : WellFormed m) :
    sweep now m = m.filter (fun e => !expired now e.2) ∧
    (∀ e : Nat × Pending,
      e ∈ sweep now m ↔ e ∈ m ∧ ¬ ((now : Int) - (e.2.joinTime : Int) > 120000)) ∧
    onSweep now m = (sweep now m, []) ∧
    sweep now (sweep now m) = sweep now m := by
  have h1 := sweep_eq_filter now m h
  refine ⟨h1, ?_, rfl, ?_⟩
  · intro e
    rw [h1, List.mem_filter]
    simp [expired]
  · rw [h1, sweep_eq_filter now _ (wellFormed_filter m _ h), List.filter_filter]
    apply List.filter_congr
    intro e _
    simp

/-- C14 (witness): at clock value 200000 the entry of member 7, made at 50000, is
removed and the entry of member 8, made at 150000, stays. -/
theorem sweep_spec_witness :
    sweep 200000
      [(7, { correctAnswer := 5, messageId := 40, joinTime := 50000, username := none }),
       (8, { correctAnswer := 9, messageId := 41, joinTime := 150000, username := none })]
      = [(8, { correctAnswer := 9, messageId := 41, joinTime := 150000, username := none })] :=
  (sweep_spec 200000
      [(7, { correctAnswer := 5, messageId := 40, joinTime := 50000, username := none }),
       (8, { correctAnswer := 9, messageId := 41, joinTime := 150000, username := none })]
      (by decide)).1.trans (by decide)

/-! ## Profile text: the fields one by one -/

/-- A block without the separator occurs in `x`, separator, `y` exactly when it
occurs in `x` or in `y`. -/
theorem infix_append_sep (k x y : Str) (sep : Char) (hk : sep ∉ k) :
    k <:+: x ++ sep :: y ↔ k <:+: x ∨ k <:+: y := by
  constructor
  · rintro ⟨s, t, hst⟩
    rw [List.append_assoc, List.append_eq_append_iff] at hst
    rcases hst with ⟨a, hx, hkt⟩ | ⟨c, hs, hy⟩
    · rw [List.append_eq_append_iff] at hkt
      rcases hkt with ⟨b, ha, _⟩ | ⟨c, hkc, hc⟩
      · left
        exact ⟨s, b, by rw [hx, ha, List.append_assoc]⟩
      · cases c with
        | nil =>
          left
          rw [List.append_nil] at hkc
          exact ⟨s, [], by rw [hx, hkc, List.append_nil]⟩
        | cons c0 c1 =>
          exfalso
          rw [List.cons_append, List.cons.injEq] at hc
          apply hk
          rw [hkc, hc.1]
          exact List.mem_append_right _ (List.mem_cons_self _ _)
    · cases c with
      | nil =>
        rw [List.nil_append] at hy
        cases k with
        | nil => left; exact List.nil_infix
        | cons k0 k1 =>
          exfalso
          rw [List.cons_append, List.cons.injEq] at hy
          apply hk
          rw [hy.1]
          exact List.mem_cons_self _ _
      | cons c0 c1 =>
        right
        rw [List.cons_append, List.cons.injEq] at hy
        exact ⟨c1, t, by rw [hy.2, List.append_assoc]⟩
  · rintro (⟨s, t, hst⟩ | ⟨s, t, hst⟩)
    · exact ⟨s, t ++ sep :: y, by rw [← hst]; simp only [List.append_assoc]⟩
    · exact ⟨x ++ sep :: s, t, by rw [← hst]; simp only [List.append_assoc, List.cons_append]⟩

theorem keywords_no_space : ∀ k ∈ SUSPICIOUS_KEYWORDS, ' ' ∉ k := by
  decide

theorem toLowerCase_profileText (user : User) :
    toLowerCase (profileText user) =
      toLowerCase (user.first_name.getD []) ++ ' ' ::
        (toLowerCase (user.last_name.getD []) ++ ' ' :: toLowerCase (user.username.getD [])) := by
  unfold profileText
  have hsp : toLowerCase " ".toList = [' '] := by decide
  rw [toLowerCase_append, toLowerCase_append, toLowerCase_append, toLowerCase_append, hsp]
  simp

/-- A denylist term occurs in the lower-cased profile text exactly when it occurs
in one of the three lower-cased fields. -/
theorem keyword_in_profile_iff (user : User) (k : Str) (hk : k ∈ SUSPICIOUS_KEYWORDS) :
    k <:+: toLowerCase (profileText user) ↔
      k <:+: toLowerCase (user.first_name.getD []) ∨
      k <:+: toLowerCase (user.last_name.getD []) ∨
      k <:+: toLowerCase (user.username.getD []) := by
  have hsp := keywords_no_space k hk
  rw [toLowerCase_profileText, infix_append_sep k _ _ ' ' hsp, infix_append_sep k _ _ ' ' hsp]

/-- C20: `hasCleanProfile` holds exactly when none of the three fields
`first_name`, `last_name` and `username`, a missing field read as empty and each
lower-cased on its own, contains a denylist term; no denylist term contains a
space, so no term is found across the space between two fields. -/
theorem hasCleanProfile_fields (user : User) :
    (hasCleanProfile user = true ↔
      ∀ k ∈ SUSPICIOUS_KEYWORDS,
        ¬ k <:+: toLowerCase (user.first_name.getD []) ∧
        ¬ k <:+: toLowerCase (user.last_name.getD []) ∧
        ¬ k <:+: toLowerCase (user.username.getD [])) ∧
    (∀ k ∈ SUSPICIOUS_KEYWORDS, ' ' ∉ k) ∧
    (∀ k ∈ SUSPICIOUS_KEYWORDS, ∀ a b : Str,
      k <:+: a ++ ' ' :: b ↔ k <:+: a ∨ k <:+: b) := by
  refine ⟨?_, keywords_no_space, fun k hk a b => infix_append_sep k a b ' ' (keywords_no_space k hk)⟩
  rw [hasCleanProfile_iff]
  constructor
  · intro h k hk
    have := h k hk
    rw [keyword_in_profile_iff user k hk] at this
    exact ⟨fun h1 => this (Or.inl h1), fun h2 => this (Or.inr (Or.inl h2)),
      fun h3 => this (Or.inr (Or.inr h3))⟩
  · intro h k hk
    rw [keyword_in_profile_iff user k hk]
    obtain ⟨h1, h2, h3⟩ := h k hk
    rintro (h | h | h)
    · exact h1 h
    · exact h2 h
    · exact h3 h

theorem estimatedCreationTime_5000000 :
    estimatedCreationTime 5000000 = ⟨7247757312000000, -24⟩ ∧
    (⟨7247757312000000, -24⟩ : Dbl).toRat = 432000000 := by
  refine ⟨by decide, ?_⟩
  unfold Dbl.toRat
  norm_num

theorem isAccountOldEnough_5000000 (now : Nat) (h : 3024000000 < now) :
    isAccountOldEnough now 5000000 = true := by
  unfold isAccountOldEnough
  simp only
  rw [estimatedCreationTime_5000000.1]
  unfold Dbl.ltInt
  rw [decide_eq_true_iff]
  have h1 : (-24 : Int).toNat = 0 := rfl
  have h2 : (-(-24 : Int)).toNat = 24 := rfl
  simp only [h1, h2]
  norm_num
  omega

/-- C15: a member with id 5,000,000, the handle `cleanuser123`, and a first and
last name that contain no denylist term passes `passesBasicValidation` at every
clock value later than 35 days (3,024,000,000 ms) after the epoch; the estimate
for this id is 432,000,000 ms, five days, with no rounding. -/
theorem passesBasicValidation_cleanuser (now : Nat) (user : User)
    (hid : user.id = 5000000)
    (hname : user.username = some "cleanuser123".toList)
    (hfirst : ∀ k ∈ SUSPICIOUS_KEYWORDS, ¬ k <:+: toLowerCase (user.first_name.getD []))
    (hlast : ∀ k ∈ SUSPICIOUS_KEYWORDS, ¬ k <:+: toLowerCase (user.last_name.getD []))
    (hnow : 3024000000 < now) :
    passesBasicValidation now user = true ∧
    (estimatedCreationTime user.id).toRat = 432000000 := by
  have hvalid : isValidUsername user.username = true := by
    rw [hname]; decide
  have hclean : hasCleanProfile user = true := by
    rw [hasCleanProfile_iff]
    intro k hk
    rw [keyword_in_profile_iff user k hk, hname]
    rintro (h | h | h)
    · exact hfirst k hk h
    · exact hlast k hk h
    · have hu : ∀ k ∈ SUSPICIOUS_KEYWORDS,
          ¬ k <:+: toLowerCase ((some "cleanuser123".toList : Option Str).getD []) := by
        decide
      exact hu k hk h
  have hold : isAccountOldEnough now user.id = true := by
    rw [hid]; exact isAccountOldEnough_5000000 now hnow
  refine ⟨?_, ?_⟩
  · unfold passesBasicValidation
    simp only [hvalid, hclean, hold, Bool.and_self]
  · rw [hid, estimatedCreationTime_5000000.1]
    exact estimatedCreationTime_5000000.2

/-- C15 (witness): member 5,000,000 named Ann Lee at the clock value 3,024,000,001. -/
theorem passesBasicValidation_cleanuser_witness :
    passesBasicValidation 3024000001
      { id := 5000000, is_bot := false, first_name := some "Ann".toList,
        last_name := some "Lee".toList, username := some "cleanuser123".toList } = true :=
  (passesBasicValidation_cleanuser 3024000001
      { id := 5000000, is_bot := false, first_name := some "Ann".toList,
        last_name := some "Lee".toList, username := some "cleanuser123".toList }
      rfl rfl (by decide) (by decide) (by decide)).1

/-! ## Keyboard: decoys, rows and the end of the loop -/

theorem numberToString_injective : Function.Injective numberToString := by
  intro a b h
  have ha := parseInt_numberToString a
  rw [h, parseInt_numberToString b] at ha
  exact (Option.some.inj ha).symm

theorem answerRow_injective :
    Function.Injective (fun answer : Int => [answerButton answer]) := by
  intro a b h
  simp only [List.cons.injEq, and_true] at h
  exact numberToString_injective (congrArg Button.text h)

theorem countP_answerRow (c : Int) (l : List Int) :
    (l.map (fun answer => [answerButton answer])).countP
        (fun row => decide (row = [answerButton c])) = l.count c := by
  induction l with
  | nil => rfl
  | cons a l ih =>
    rw [List.map_cons, List.countP_cons, List.count_cons, ih]
    by_cases hac : a = c
    · simp [hac]
    · have hne : ¬ [answerButton a] = [answerButton c] := fun h => hac (answerRow_injective h)
      simp [hac, hne]

theorem wrongAnswersLoop_of_shuffled (c : Int) (draws : List (Fin 20)) (cmps : Nat → Bool)
    (vs : List Int) (h : shuffledAnswers c draws cmps = some vs) :
    ∃ ws rest, wrongAnswersLoop c draws [] = some (ws, rest) ∧
      vs = (sortWith cmps (c :: ws) 0).1 := by
  unfold shuffledAnswers at h
  split at h
  · exact Option.noConfusion h
  · rename_i ws rest hloop
    simp only [Option.some.injEq] at h
    exact ⟨ws, rest, hloop, h.symm⟩

/-- C16: when `createCaptchaKeyboard` returns for a correct answer `c`, the loop
has collected exactly 3 decoys, pairwise distinct, each in `[c - 10, c + 9]`,
different from `c` and strictly positive; the keyboard has exactly 4 rows of one
button, made from a rearrangement of `c` and the 3 decoys, and exactly one row
carries the correct answer, whatever the comparator answers. -/
theorem createCaptchaKeyboard_decoys (c : Int) (draws : List (Fin 20)) (cmps : Nat → Bool)
    (kb : List (List Button)) (h : createCaptchaKeyboard c draws cmps = some kb) :
    ∃ (ws : List Int) (rest : List (Fin 20)) (vs : List Int),
      wrongAnswersLoop c draws [] = some (ws, rest) ∧
      ws.length = 3 ∧ ws.Nodup ∧
      (∀ w ∈ ws, c - 10 ≤ w ∧ w ≤ c + 9 ∧ w ≠ c ∧ 0 < w) ∧
      kb = vs.map (fun answer => [answerButton answer]) ∧
      vs.Perm (c :: ws) ∧
      kb.length = 4 ∧ (∀ row ∈ kb, row.length = 1) ∧
      kb.countP (fun row => decide (row = [answerButton c])) = 1 := by
  obtain ⟨vs, hvs, hkb⟩ := createCaptchaKeyboard_eq c draws cmps kb h
  obtain ⟨ws, rest, hloop, hsort⟩ := wrongAnswersLoop_of_shuffled c draws cmps vs hvs
  obtain ⟨hlen, hnd, hws⟩ := wrongAnswersLoop_spec c draws [] ws rest
    ⟨List.nodup_nil, fun w hw => absurd hw (List.not_mem_nil w)⟩ (by simp) hloop
  have hperm : vs.Perm (c :: ws) := by
    rw [hsort]; exact sortWith_perm cmps _ 0
  have hvnd : vs.Nodup := by
    rw [hperm.nodup_iff, List.nodup_cons]
    exact ⟨fun hin => (hws c hin).1 rfl, hnd⟩
  have hcmem : c ∈ vs := by
    rw [hperm.mem_iff]; exact List.mem_cons_self _ _
  refine ⟨ws, rest, vs, hloop, hlen, hnd, ?_, hkb, hperm, ?_, ?_, ?_⟩
  · intro w hw
    obtain ⟨h1, h2, h3, h4⟩ := hws w hw
    exact ⟨h3, h4, h1, h2⟩
  · rw [hkb, List.length_map, hperm.length_eq, List.length_cons, hlen]
  · intro row hrow
    rw [hkb, List.mem_map] at hrow
    obtain ⟨a, _, ha⟩ := hrow
    rw [← ha]
    rfl
  · rw [hkb]
    rw [countP_answerRow, List.count_eq_one_of_mem hvnd hcmem]

/-- C16 (witness): the keyboard for the answer 8 with the draws 10, 8, 9, 11. -/
theorem createCaptchaKeyboard_decoys_witness :
    ∃ (ws : List Int) (rest : List (Fin 20)) (vs : List Int),
      wrongAnswersLoop 8 [10, 8, 9, 11] [] = some (ws, rest) ∧
      ws.length = 3 ∧ ws.Nodup ∧
      (∀ w ∈ ws, (8 : Int) - 10 ≤ w ∧ w ≤ 8 + 9 ∧ w ≠ 8 ∧ 0 < w) ∧
      [[answerButton 9], [answerButton 7], [answerButton 6], [answerButton 8]]
        = vs.map (fun answer => [answerButton answer]) ∧
      vs.Perm (8 :: ws) ∧
      [[answerButton 9], [answerButton 7], [answerButton 6], [answerButton 8]].length = 4 ∧
      (∀ row ∈ [[answerButton 9], [answerButton 7], [answerButton 6], [answerButton 8]],
        row.length = 1) ∧
      [[answerButton 9], [answerButton 7], [answerButton 6], [answerButton 8]].countP
        (fun row => decide (row = [answerButton 8])) = 1 :=
  createCaptchaKeyboard_decoys 8 [10, 8, 9, 11] (fun _ => false) _ (by decide)

/-! ## The end of the decoy loop -/

theorem wrongAnswersLoop_cons (c : Int) (d : Fin 20) (rest : List (Fin 20)) (acc : List Int) :
    wrongAnswersLoop c (d :: rest) acc =
      if acc.length < 3 then wrongAnswersLoop c rest (pushWrong c acc d)
      else some (acc, d :: rest) := by
  rw [wrongAnswersLoop]
  unfold pushWrong wrongOf
  by_cases hlen : acc.length < 3
  · simp only [hlen, if_true]
    split <;> rfl
  · simp only [hlen, if_false]

theorem wrongAnswersLoop_full (c : Int) (draws : List (Fin 20)) (acc : List Int)
    (h : 3 ≤ acc.length) : wrongAnswersLoop c draws acc = some (acc, draws) := by
  cases draws with
  | nil =>
    rw [wrongAnswersLoop]
    rw [if_neg (by omega)]
  | cons d rest =>
    rw [wrongAnswersLoop_cons, if_neg (by omega)]

theorem pushWrong_length (c : Int) (acc : List Int) (d : Fin 20) :
    acc.length ≤ (pushWrong c acc d).length ∧ (pushWrong c acc d).length ≤ acc.length + 1 := by
  unfold pushWrong
  split
  · simp
  · simp

theorem foldl_pushWrong_length (c : Int) (draws : List (Fin 20)) (acc : List Int) :
    acc.length ≤ (draws.foldl (pushWrong c) acc).length := by
  induction draws generalizing acc with
  | nil => exact le_rfl
  | cons d rest ih =>
    rw [List.foldl_cons]
    exact le_trans (pushWrong_length c acc d).1 (ih _)

/-- As long as fewer than 3 decoys have been accepted, the loop goes on with the
next draw. -/
theorem wrongAnswersLoop_append (c : Int) (pre post : List (Fin 20)) (acc : List Int)
    (h : (pre.foldl (pushWrong c) acc).length < 3) :
    wrongAnswersLoop c (pre ++ post) acc =
      wrongAnswersLoop c post (pre.foldl (pushWrong c) acc) := by
  induction pre generalizing acc with
  | nil => rfl
  | cons d rest ih =>
    rw [List.foldl_cons] at h
    have h1 := foldl_pushWrong_length c rest (pushWrong c acc d)
    have h2 := (pushWrong_length c acc d).1
    rw [List.cons_append, wrongAnswersLoop_cons, if_pos (by omega), List.foldl_cons]
    exact ih _ h

theorem wrongAnswersLoop_exhausted (c : Int) (draws : List (Fin 20)) (acc : List Int)
    (h : (draws.foldl (pushWrong c) acc).length < 3) :
    wrongAnswersLoop c draws acc = none := by
  have := wrongAnswersLoop_append c draws [] acc h
  rw [List.append_nil] at this
  rw [this, wrongAnswersLoop, if_pos h]

/-- The loop stops with the draw that brings the third decoy. -/
theorem wrongAnswersLoop_third (c : Int) (pre post : List (Fin 20)) (d : Fin 20)
    (h2 : (accepted c pre).length = 2)
    (h3 : (pushWrong c (accepted c pre) d).length = 3) :
    wrongAnswersLoop c (pre ++ d :: post) [] = some (pushWrong c (accepted c pre) d, post) ∧
    wrongAnswersLoop c pre [] = none := by
  unfold accepted at h2 h3 ⊢
  constructor
  · rw [wrongAnswersLoop_append c pre (d :: post) [] (by omega), wrongAnswersLoop_cons,
      if_pos (by omega)]
    exact wrongAnswersLoop_full c post _ (by omega)
  · exact wrongAnswersLoop_exhausted c pre [] (by omega)

/-- Where the third decoy comes in a run of draws that brings at least three. -/
theorem third_decoy_split (c : Int) (draws : List (Fin 20)) (acc : List Int)
    (hacc : acc.length < 3) (h : 3 ≤ (draws.foldl (pushWrong c) acc).length) :
    ∃ pre d post, draws = pre ++ d :: post ∧
      (pre.foldl (pushWrong c) acc).length = 2 ∧
      (pushWrong c (pre.foldl (pushWrong c) acc) d).length = 3 := by
  induction draws generalizing acc with
  | nil =>
    simp only [List.foldl_nil] at h
    omega
  | cons d rest ih =>
    rw [List.foldl_cons] at h
    have hp := pushWrong_length c acc d
    by_cases hfull : 3 ≤ (pushWrong c acc d).length
    · exact ⟨[], d, rest, rfl, by simp only [List.foldl_nil]; omega,
        by simp only [List.foldl_nil]; omega⟩
    · obtain ⟨pre, d2, post, hsplit, hpre, hd2⟩ := ih (pushWrong c acc d) (by omega) h
      exact ⟨d :: pre, d2, post, by rw [hsplit, List.cons_append], hpre, hd2⟩

theorem mem_pushWrong (c : Int) (acc : List Int) (d : Fin 20) (w : Int) (hw : w ∈ acc) :
    w ∈ pushWrong c acc d := by
  unfold pushWrong
  split
  · exact List.mem_append_left _ hw
  · exact hw

theorem mem_foldl_pushWrong (c : Int) (draws : List (Fin 20)) (acc : List Int) (w : Int)
    (hw : w ∈ acc) : w ∈ draws.foldl (pushWrong c) acc := by
  induction draws generalizing acc with
  | nil => exact hw
  | cons d rest ih =>
    rw [List.foldl_cons]
    exact ih _ (mem_pushWrong c acc d w hw)

/-- Every acceptable value that is drawn is among the accepted decoys. -/
theorem wrongOf_mem_foldl (c : Int) (draws : List (Fin 20)) (acc : List Int) (d : Fin 20)
    (hd : d ∈ draws) (hne : wrongOf c d ≠ c) (hpos : 0 < wrongOf c d) :
    wrongOf c d ∈ draws.foldl (pushWrong c) acc := by
  induction draws generalizing acc with
  | nil => exact absurd hd (List.not_mem_nil d)
  | cons e rest ih =>
    rw [List.foldl_cons]
    rcases List.mem_cons.1 hd with h | h
    · subst h
      apply mem_foldl_pushWrong
      unfold pushWrong
      split
      · exact List.mem_append_right _ (List.mem_singleton_self _)
      · rename_i hcond
        have hin : wrongOf c d ∈ acc := by
          by_contra hnot
          exact hcond ⟨hne, hpos, by simpa using hnot⟩
        exact hin
    · exact ih _ h

/-- C19: every answer of `generateCaptcha` lies between 0 and 100; for such an
answer `c` the values `c + 1`, `c + 2`, `c + 3` are three distinct values in
`[c - 10, c + 9]` that are strictly positive and differ from `c`, and the draws
that give them end the loop.  In every list of draws in which three distinct
acceptable values occur, the loop of `createCaptchaKeyboard` stops with the draw
that brings the third accepted decoy: it has not stopped before that draw, it
returns at that draw, and the draws after it are not used. -/
theorem wrongAnswersLoop_terminates :
    (∀ (r1 r2 : Fin 10) (r3 : Fin 3),
      0 ≤ (generateCaptcha r1 r2 r3).answer ∧ (generateCaptcha r1 r2 r3).answer ≤ 100) ∧
    (∀ c : Int, 0 ≤ c →
      (∀ w ∈ [c + 1, c + 2, c + 3], c - 10 ≤ w ∧ w ≤ c + 9 ∧ 0 < w ∧ w ≠ c) ∧
      [c + 1, c + 2, c + 3].Nodup ∧
      wrongAnswersLoop c [11, 12, 13] [] = some ([c + 1, c + 2, c + 3], [])) ∧
    (∀ (c : Int) (draws : List (Fin 20)) (d1 d2 d3 : Fin 20),
      d1 ∈ draws → d2 ∈ draws → d3 ∈ draws →
      wrongOf c d1 ≠ wrongOf c d2 → wrongOf c d1 ≠ wrongOf c d3 →
      wrongOf c d2 ≠ wrongOf c d3 →
      (∀ d ∈ [d1, d2, d3], wrongOf c d ≠ c ∧ 0 < wrongOf c d) →
      ∃ pre d post, draws = pre ++ d :: post ∧
        (accepted c pre).length = 2 ∧
        wrongAnswersLoop c pre [] = none ∧
        wrongAnswersLoop c draws [] = some (accepted c pre ++ [wrongOf c d], post) ∧
        wrongOf c d ≠ c ∧ 0 < wrongOf c d ∧ wrongOf c d ∉ accepted c pre) := by
  refine ⟨by decide, ?_, ?_⟩
  · intro c hc
    refine ⟨?_, ?_, ?_⟩
    · intro w hw
      simp only [List.mem_cons, List.mem_singleton, List.not_mem_nil, or_false] at hw
      rcases hw with h | h | h <;> subst h <;> refine ⟨?_, ?_, ?_, ?_⟩ <;> omega
    · simp only [List.nodup_cons, List.mem_cons, List.mem_singleton, List.not_mem_nil,
        or_false, not_false_eq_true, List.nodup_nil, and_true]
      refine ⟨?_, ?_⟩
      · rintro (h | h) <;> omega
      · omega
    · have e1 : wrongOf c 11 = c + 1 := by
        have hv : (((11 : Fin 20)).val : Int) = 11 := rfl
        unfold wrongOf
        rw [hv]
        omega
      have e2 : wrongOf c 12 = c + 2 := by
        have hv : (((12 : Fin 20)).val : Int) = 12 := rfl
        unfold wrongOf
        rw [hv]
        omega
      have e3 : wrongOf c 13 = c + 3 := by
        have hv : (((13 : Fin 20)).val : Int) = 13 := rfl
        unfold wrongOf
        rw [hv]
        omega
      have p1 : pushWrong c [] 11 = [c + 1] := by
        unfold pushWrong
        rw [e1, if_pos ⟨by omega, by omega, by simp⟩]
        rfl
      have p2 : pushWrong c [c + 1] 12 = [c + 1, c + 2] := by
        unfold pushWrong
        rw [e2, if_pos ⟨by omega, by omega, by simp⟩]
        rfl
      have p3 : pushWrong c [c + 1, c + 2] 13 = [c + 1, c + 2, c + 3] := by
        unfold pushWrong
        rw [e3, if_pos ⟨by omega, by omega, by simp⟩]
        rfl
      rw [wrongAnswersLoop_cons, if_pos (by simp), p1, wrongAnswersLoop_cons,
        if_pos (by simp), p2, wrongAnswersLoop_cons, if_pos (by simp), p3]
      exact wrongAnswersLoop_full c [] _ (by simp)
  · intro c draws d1 d2 d3 hd1 hd2 hd3 h12 h13 h23 hacc
    have hm : ∀ d ∈ [d1, d2, d3], d ∈ draws := by
      intro d hd
      simp only [List.mem_cons, List.mem_singleton, List.not_mem_nil, or_false] at hd
      rcases hd with h | h | h <;> subst h <;> assumption
    have hsub : [wrongOf c d1, wrongOf c d2, wrongOf c d3] ⊆ accepted c draws := by
      intro w hw
      simp only [List.mem_cons, List.mem_singleton, List.not_mem_nil, or_false] at hw
      unfold accepted
      rcases hw with h | h | h <;> subst h
      · exact wrongOf_mem_foldl c draws [] d1 hd1 (hacc d1 (by simp)).1 (hacc d1 (by simp)).2
      · exact wrongOf_mem_foldl c draws [] d2 hd2 (hacc d2 (by simp)).1 (hacc d2 (by simp)).2
      · exact wrongOf_mem_foldl c draws [] d3 hd3 (hacc d3 (by simp)).1 (hacc d3 (by simp)).2
    have hnd : [wrongOf c d1, wrongOf c d2, wrongOf c d3].Nodup := by
      simp only [List.nodup_cons, List.mem_cons, List.mem_singleton, List.not_mem_nil,
        or_false, not_false_eq_true, List.nodup_nil, and_true]
      exact ⟨fun h => h.elim h12 h13, h23⟩
    have hlen : 3 ≤ (accepted c draws).length :=
      (List.subperm_of_subset hnd hsub).length_le
    obtain ⟨pre, d, post, hsplit, hpre, hd⟩ :=
      third_decoy_split c draws [] (by simp) hlen
    have hthird := wrongAnswersLoop_third c pre post d hpre hd
    have hpush : pushWrong c (accepted c pre) d = accepted c pre ++ [wrongOf c d] ∧
        wrongOf c d ≠ c ∧ 0 < wrongOf c d ∧ wrongOf c d ∉ accepted c pre := by
      have hpre2 : (accepted c pre).length = 2 := hpre
      have hd2 : (pushWrong c (accepted c pre) d).length = 3 := hd
      by_cases hcond : wrongOf c d ≠ c ∧ wrongOf c d > 0 ∧
          ¬ (accepted c pre).contains (wrongOf c d)
      · have hpw : pushWrong c (accepted c pre) d = accepted c pre ++ [wrongOf c d] := by
          unfold pushWrong
          rw [if_pos hcond]
        exact ⟨hpw, hcond.1, hcond.2.1, by simpa using hcond.2.2⟩
      · have hpw : pushWrong c (accepted c pre) d = accepted c pre := by
          unfold pushWrong
          rw [if_neg hcond]
        rw [hpw] at hd2
        omega
    refine ⟨pre, d, post, hsplit, hpre, hthird.2, ?_, hpush.2⟩
    rw [hsplit, hthird.1, hpush.1]

/-- Three draws with distinct acceptable values bring at least three decoys. -/
theorem accepted_length_of_drawn (c : Int) (draws : List (Fin 20))
    (h : ThreeDecoysDrawn c draws) : 3 ≤ (accepted c draws).length := by
  obtain ⟨d1, d2, d3, hd1, hd2, hd3, h12, h13, h23, hacc⟩ := h
  have hsub : [wrongOf c d1, wrongOf c d2, wrongOf c d3] ⊆ accepted c draws := by
    intro w hw
    simp only [List.mem_cons, List.mem_singleton, List.not_mem_nil, or_false] at hw
    unfold accepted
    rcases hw with h | h | h <;> subst h
    · exact wrongOf_mem_foldl c draws [] d1 hd1 (hacc d1 (by simp)).1 (hacc d1 (by simp)).2
    · exact wrongOf_mem_foldl c draws [] d2 hd2 (hacc d2 (by simp)).1 (hacc d2 (by simp)).2
    · exact wrongOf_mem_foldl c draws [] d3 hd3 (hacc d3 (by simp)).1 (hacc d3 (by simp)).2
  have hnd : [wrongOf c d1, wrongOf c d2, wrongOf c d3].Nodup := by
    simp only [List.nodup_cons, List.mem_cons, List.mem_singleton, List.not_mem_nil,
      or_false, not_false_eq_true, List.nodup_nil, and_true]
    exact ⟨fun h => h.elim h12 h13, h23⟩
  exact (List.subperm_of_subset hnd hsub).length_le

/-- The loop returns exactly when the draws bring three decoys. -/
theorem wrongAnswersLoop_returns_iff (c : Int) (draws : List (Fin 20)) :
    (∃ ws rest, wrongAnswersLoop c draws [] = some (ws, rest)) ↔
      3 ≤ (accepted c draws).length := by
  constructor
  · rintro ⟨ws, rest, h⟩
    by_contra hlt
    have hnone := wrongAnswersLoop_exhausted c draws []
      (by unfold accepted at hlt; omega)
    rw [hnone] at h
    exact Option.noConfusion h
  · intro h
    obtain ⟨pre, d, post, hsplit, hpre, hd⟩ := third_decoy_split c draws [] (by simp) h
    exact ⟨_, post, by rw [hsplit]; exact (wrongAnswersLoop_third c pre post d hpre hd).1⟩

/-- The keyboard is built exactly when the draws bring three decoys. -/
theorem createCaptchaKeyboard_returns_iff (c : Int) (draws : List (Fin 20))
    (cmps : Nat → Bool) :
    (∃ kb, createCaptchaKeyboard c draws cmps = some kb) ↔
      3 ≤ (accepted c draws).length := by
  rw [← wrongAnswersLoop_returns_iff]
  unfold createCaptchaKeyboard shuffledAnswers
  constructor
  · rintro ⟨kb, h⟩
    cases hloop : wrongAnswersLoop c draws [] with
    | none =>
      rw [hloop] at h
      exact Option.noConfusion h
    | some r => exact ⟨r.1, r.2, rfl⟩
  · rintro ⟨ws, rest, h⟩
    rw [h]
    exact ⟨_, rfl⟩

theorem threeDecoysDrawn_basic (c : Int) (hc : 0 ≤ c) : ThreeDecoysDrawn c [11, 12, 13] := by
  have e1 : wrongOf c 11 = c + 1 := by
    have hv : (((11 : Fin 20)).val : Int) = 11 := rfl
    unfold wrongOf
    rw [hv]
    omega
  have e2 : wrongOf c 12 = c + 2 := by
    have hv : (((12 : Fin 20)).val : Int) = 12 := rfl
    unfold wrongOf
    rw [hv]
    omega
  have e3 : wrongOf c 13 = c + 3 := by
    have hv : (((13 : Fin 20)).val : Int) = 13 := rfl
    unfold wrongOf
    rw [hv]
    omega
  refine ⟨11, 12, 13, by simp, by simp, by simp, ?_, ?_, ?_, ?_⟩
  · rw [e1, e2]; omega
  · rw [e1, e3]; omega
  · rw [e2, e3]; omega
  · intro d hd
    simp only [List.mem_cons, List.mem_singleton, List.not_mem_nil, or_false] at hd
    rcases hd with h | h | h <;> subst h
    · rw [e1]; constructor <;> omega
    · rw [e2]; constructor <;> omega
    · rw [e3]; constructor <;> omega

/-! ## Challenge issuance -/

theorem mapGet_mapSet_self (m : PendingUsers) (userId : Nat) (v : Pending) :
    mapGet (mapSet m userId v) userId = some v := by
  induction m with
  | nil => simp [mapSet, mapGet]
  | cons e m ih =>
    obtain ⟨k, w⟩ := e
    unfold mapSet
    by_cases h : k = userId
    · rw [if_pos h]
      unfold mapGet
      rw [if_pos h]
    · rw [if_neg h]
      unfold mapGet
      rw [if_neg h]
      exact ih

theorem mapGet_mapSet_ne (m : PendingUsers) (userId other : Nat) (v : Pending)
    (h : other ≠ userId) : mapGet (mapSet m userId v) other = mapGet m other := by
  induction m with
  | nil =>
    have h2 : ¬ userId = other := fun h3 => h h3.symm
    simp [mapSet, mapGet, h2]
  | cons e m ih =>
    obtain ⟨k, w⟩ := e
    unfold mapSet
    by_cases hk : k = userId
    · have hko : ¬ k = other := fun h2 => h (h2 ▸ hk)
      rw [if_pos hk]
      unfold mapGet
      rw [if_neg hko, if_neg hko]
    · rw [if_neg hk]
      unfold mapGet
      rw [ih]

theorem keys_mapSet (m : PendingUsers) (userId : Nat) (v : Pending) :
    (mapSet m userId v).map Prod.fst =
      if userId ∈ m.map Prod.fst then m.map Prod.fst else m.map Prod.fst ++ [userId] := by
  induction m with
  | nil => simp [mapSet]
  | cons e m ih =>
    obtain ⟨k, w⟩ := e
    unfold mapSet
    by_cases hk : k = userId
    · rw [if_pos hk]
      simp [hk]
    · rw [if_neg hk, List.map_cons, ih]
      have hk2 : ¬ userId = k := fun h => hk h.symm
      by_cases hin : userId ∈ m.map Prod.fst
      · simp [hin]
      · simp [hin, hk2]

theorem wellFormed_mapSet (m : PendingUsers) (userId : Nat) (v : Pending)
    (h : WellFormed m) :
    WellFormed (mapSet m userId v) ∧ ((mapSet m userId v).map Prod.fst).count userId = 1 := by
  unfold WellFormed at h ⊢
  rw [keys_mapSet]
  by_cases hin : userId ∈ m.map Prod.fst
  · rw [if_pos hin]
    exact ⟨h, List.count_eq_one_of_mem h hin⟩
  · rw [if_neg hin]
    have hnd : (m.map Prod.fst ++ [userId]).Nodup := by
      rw [List.nodup_append]
      refine ⟨h, List.nodup_singleton _, ?_⟩
      intro a ha hb
      rw [List.mem_singleton] at hb
      subst hb
      exact hin ha
    exact ⟨hnd, List.count_eq_one_of_mem hnd (List.mem_append_right _ (List.mem_singleton_self _))⟩

theorem evalQuestion_generateCaptcha (r1 r2 : Fin 10) (r3 : Fin 3) :
    evalQuestion (generateCaptcha r1 r2 r3).question = some (generateCaptcha r1 r2 r3).answer := by
  revert r1 r2 r3
  decide

/-- C18: for a member who is not automated and passes `passesBasicValidation`,
when the loop body returns.  If the restrict and send calls resolve, the registry
afterwards has exactly one entry for the member, holding the answer of the
generated question (the value of the question text that was sent), the
`message_id` returned for the challenge and the clock value at the store; the
entry of every other member is as before, and one deadline for this challenge is
armed.  If the restrict or the send call rejects, the registry is left as it
was. -/
theorem handleNewMember_challenge (gw : Gateway) (chatId : Int) (inp : Inputs)
    (st st1 : Arrival) (user : User)
    (hbot : user.is_bot = false)
    (hval : passesBasicValidation inp.nowCheck user = true)
    (hwf : WellFormed st.pendingUsers)
    (hrun : handleNewMember gw chatId inp st user = some st1) :
    (∀ messageId : Nat, (gw st.calls.length).isSome →
      gw (st.calls.length + 1) = some messageId →
        mapGet st1.pendingUsers user.id = some
          { correctAnswer := (generateCaptcha inp.r1 inp.r2 inp.r3).answer,
            messageId := messageId,
            joinTime := inp.nowStore,
            username := if user.username.getD [] = [] then user.first_name
              else user.username } ∧
        evalQuestion (generateCaptcha inp.r1 inp.r2 inp.r3).question
          = some (generateCaptcha inp.r1 inp.r2 inp.r3).answer ∧
        (st1.pendingUsers.map Prod.fst).count user.id = 1 ∧
        WellFormed st1.pendingUsers ∧
        (∀ other : Nat, other ≠ user.id →
          mapGet st1.pendingUsers other = mapGet st.pendingUsers other) ∧
        (∃ kb, createCaptchaKeyboard (generateCaptcha inp.r1 inp.r2 inp.r3).answer
              inp.decoys inp.cmps = some kb ∧
          st1.calls = st.calls ++
            [Call.restrictChatMember chatId user.id mutedPermissions,
             Call.sendMessage chatId
               (captchaText user (generateCaptcha inp.r1 inp.r2 inp.r3)) (some kb)]) ∧
        st1.timers = st.timers ++
          [{ chatId := chatId, user := user, messageId := messageId, delay := 120000 }]) ∧
    ((gw st.calls.length = none ∨ gw (st.calls.length + 1) = none) →
      st1.pendingUsers = st.pendingUsers) := by
  unfold handleNewMember at hrun
  simp only [hbot, Bool.false_eq_true, if_false, hval, Bool.not_true] at hrun
  cases h0 : gw st.calls.length with
  | none =>
    rw [h0] at hrun
    simp only [Option.some.injEq] at hrun
    subst hrun
    exact ⟨fun _ h => absurd h (by simp), fun _ => rfl⟩
  | some v0 =>
    rw [h0] at hrun
    simp only at hrun
    cases hkb : createCaptchaKeyboard (generateCaptcha inp.r1 inp.r2 inp.r3).answer
        inp.decoys inp.cmps with
    | none =>
      rw [hkb] at hrun
      exact Option.noConfusion hrun
    | some kb =>
      rw [hkb] at hrun
      simp only at hrun
      cases h1 : gw (st.calls.length + 1) with
      | none =>
        rw [h1] at hrun
        simp only [Option.some.injEq] at hrun
        subst hrun
        exact ⟨fun _ _ h => Option.noConfusion h, fun _ => rfl⟩
      | some mid =>
        rw [h1] at hrun
        simp only [Option.some.injEq] at hrun
        subst hrun
        refine ⟨?_, ?_⟩
        · intro messageId _ hmid
          have hm : mid = messageId := Option.some.inj hmid
          subst hm
          obtain ⟨hw1, hw2⟩ := wellFormed_mapSet st.pendingUsers user.id
            { correctAnswer := (generateCaptcha inp.r1 inp.r2 inp.r3).answer,
              messageId := mid, joinTime := inp.nowStore,
              username := if user.username.getD [] = [] then user.first_name
                else user.username } hwf
          exact ⟨mapGet_mapSet_self _ _ _, evalQuestion_generateCaptcha _ _ _, hw2, hw1,
            fun other ho => mapGet_mapSet_ne _ _ _ _ ho, ⟨kb, rfl, rfl⟩, rfl⟩
        · rintro (h | h)
          · exact Option.noConfusion h
          · exact Option.noConfusion h

/-- C18 (witness): member 5,000,000 joins an empty registry, the question is
`3 + 5`, and the challenge is sent as message 40 at clock value 1700000000500. -/
theorem handleNewMember_challenge_witness :
    mapGet
        [(5000000,
          { correctAnswer := 8, messageId := 40, joinTime := 1700000000500,
            username := some "cleanuser123".toList })] 5000000
      = some { correctAnswer := (generateCaptcha 2 4 0).answer, messageId := 40,
               joinTime := 1700000000500,
               username := if (some "cleanuser123".toList : Option Str).getD [] = []
                 then some "Ann".toList else some "cleanuser123".toList } :=
  ((handleNewMember_challenge (fun k => if k = 1 then some 40 else some 0) (-1001)
      { nowCheck := 1700000000000, nowStore := 1700000000500, r1 := 2, r2 := 4, r3 := 0,
        decoys := [10, 8, 9, 11], cmps := fun _ => false }
      { pendingUsers := [], calls := [], timers := [] }
      { pendingUsers :=
          [(5000000,
            { correctAnswer := 8, messageId := 40, joinTime := 1700000000500,
              username := some "cleanuser123".toList })],
        calls := [Call.restrictChatMember (-1001) 5000000 mutedPermissions,
          Call.sendMessage (-1001)
            (captchaText { id := 5000000, is_bot := false, first_name := some "Ann".toList,
                           last_name := none, username := some "cleanuser123".toList }
              (generateCaptcha 2 4 0))
            (some [[answerButton 9], [answerButton 7], [answerButton 6], [answerButton 8]])],
        timers := [{ chatId := -1001,
                     user := { id := 5000000, is_bot := false,
                               first_name := some "Ann".toList, last_name := none,
                               username := some "cleanuser123".toList },
                     messageId := 40, delay := 120000 }] }
      { id := 5000000, is_bot := false, first_name := some "Ann".toList, last_name := none,
        username := some "cleanuser123".toList }
      rfl (by decide) (by decide) (by decide)).1 40 (by decide) (by decide)).1

/-! ## Handler runs that pause at `await` -/

/-- The deadline callback run turn by turn with no other handler in between is
the callback run in one piece. -/
theorem race_deadline_alone (CHANNEL_ID : Str) (gw : Gateway) (t : Timer) (q : CallbackQuery)
    (pendingUsers : PendingUsers) :
    ((race CHANNEL_ID t q pendingUsers
        [Turn.deadline true, Turn.deadline (gw 0).isSome, Turn.deadline (gw 1).isSome,
         Turn.deadline (gw 2).isSome]).world.pendingUsers,
     (race CHANNEL_ID t q pendingUsers
        [Turn.deadline true, Turn.deadline (gw 0).isSome, Turn.deadline (gw 1).isSome,
         Turn.deadline (gw 2).isSome]).world.calls)
      = onDeadline gw pendingUsers t := by
  unfold onDeadline
  cases hh : mapHas pendingUsers t.user.id <;> cases h0 : gw 0 <;> cases h1 : gw 1 <;>
    cases h2 : gw 2 <;>
    simp [race, raceStep, stepRoutine, deadlineBody, runUntilAwait, awaitAll, hh, h0, h1, h2]

/-- The response handler run turn by turn with no other handler in between is the
handler run in one piece. -/
theorem race_response_alone (CHANNEL_ID : Str) (gw : Gateway) (t : Timer) (q : CallbackQuery)
    (pendingUsers : PendingUsers) :
    ((race CHANNEL_ID t q pendingUsers
        [Turn.response true, Turn.response (gw 0).isSome, Turn.response (gw 1).isSome,
         Turn.response (gw 2).isSome, Turn.response (gw 3).isSome]).world.pendingUsers,
     (race CHANNEL_ID t q pendingUsers
        [Turn.response true, Turn.response (gw 0).isSome, Turn.response (gw 1).isSome,
         Turn.response (gw 2).isSome, Turn.response (gw 3).isSome]).world.calls)
      = onCallbackQuery CHANNEL_ID gw pendingUsers q := by
  unfold onCallbackQuery
  by_cases hc : numberToString q.chatId = CHANNEL_ID
  · by_cases hs : startsWith q.data "captcha_".toList = true
    · cases hp : mapGet pendingUsers q.sender.id with
      | none =>
        simp only [race, raceStep, stepRoutine, responseBody, runUntilAwait, List.foldl_cons,
          List.foldl_nil, hc, hs, hp, ne_eq, not_true_eq_false, if_false, if_true,
          List.nil_append]
        cases h0 : gw 0 <;> simp [runUntilAwait]
      | some p =>
        by_cases ha : parseInt (removeFirst "captcha_".toList q.data) = some p.correctAnswer
        · simp only [race, raceStep, stepRoutine, responseBody, List.foldl_cons,
            List.foldl_nil, hc, hs, hp, ha, ne_eq, not_true_eq_false, if_false, if_true]
          cases h0 : gw 0 <;> cases h1 : gw 1 <;> cases h2 : gw 2 <;> cases h3 : gw 3 <;>
            simp [runUntilAwait, awaitAll, h0, h1, h2, h3]
        · simp only [race, raceStep, stepRoutine, responseBody, List.foldl_cons,
            List.foldl_nil, hc, hs, hp, ha, ne_eq, not_true_eq_false, if_false, if_true]
          cases h0 : gw 0 <;> cases h1 : gw 1 <;> cases h2 : gw 2 <;> cases h3 : gw 3 <;>
            simp [runUntilAwait, awaitAll, h0, h1, h2, h3]
    · simp only [race, raceStep, stepRoutine, responseBody, runUntilAwait, List.foldl_cons,
        List.foldl_nil, hc, hs, ne_eq, not_true_eq_false, if_false, Bool.false_eq_true]
  · simp only [race, raceStep, stepRoutine, responseBody, runUntilAwait, List.foldl_cons,
      List.foldl_nil, hc, ne_eq, not_false_eq_true, if_true]

/-- C12 (the code at a failing interleaving): 5 is stored for member 7 with
challenge message 40, and every gateway call resolves.  In the first run the
deadline callback starts and pauses at `await bot.kickChatMember`, then the
response `captcha_5` of member 7 is handled; in the second run the response
handler starts and pauses at `await bot.restrictChatMember`, then the deadline
fires.  In both runs both handlers find the entry and both act: the member is
kicked and unbanned by the deadline and given the sending rights back by the
response handler. -/
theorem race_both_handlers_act :
    race "-1001".toList
      { chatId := -1001,
        user := { id := 7, is_bot := false, first_name := some "Ann".toList,
                  last_name := none, username := none },
        messageId := 40, delay := 120000 }
      { id := "q1".toList, chatId := -1001,
        sender := { id := 7, is_bot := false, first_name := some "Ann".toList,
                    last_name := none, username := none },
        data := "captcha_5".toList }
      [(7, { correctAnswer := 5, messageId := 40, joinTime := 0, username := none })]
      [Turn.deadline true, Turn.response true, Turn.deadline true, Turn.deadline true,
       Turn.deadline true, Turn.response true, Turn.response true, Turn.response true,
       Turn.response true]
      = { world :=
            { pendingUsers := [],
              calls :=
                [Call.kickChatMember (-1001) 7,
                 Call.restrictChatMember (-1001) 7 approvedPermissions,
                 Call.unbanChatMember (-1001) 7,
                 Call.deleteMessage (-1001) 40,
                 Call.deleteMessage (-1001) 40,
                 Call.sendMessage (-1001)
                   "✅ Welcome Ann! You have been verified and can now participate in the channel.".toList
                   none,
                 Call.answerCallbackQuery "q1".toList "✅ Verified successfully!".toList] },
          deadline := Routine.finished, response := Routine.finished } ∧
    race "-1001".toList
      { chatId := -1001,
        user := { id := 7, is_bot := false, first_name := some "Ann".toList,
                  last_name := none, username := none },
        messageId := 40, delay := 120000 }
      { id := "q1".toList, chatId := -1001,
        sender := { id := 7, is_bot := false, first_name := some "Ann".toList,
                    last_name := none, username := none },
        data := "captcha_5".toList }
      [(7, { correctAnswer := 5, messageId := 40, joinTime := 0, username := none })]
      [Turn.response true, Turn.deadline true, Turn.response true, Turn.response true,
       Turn.response true, Turn.response true, Turn.deadline true, Turn.deadline true,
       Turn.deadline true]
      = { world :=
            { pendingUsers := [],
              calls :=
                [Call.restrictChatMember (-1001) 7 approvedPermissions,
                 Call.kickChatMember (-1001) 7,
                 Call.deleteMessage (-1001) 40,
                 Call.sendMessage (-1001)
                   "✅ Welcome Ann! You have been verified and can now participate in the channel.".toList
                   none,
                 Call.answerCallbackQuery "q1".toList "✅ Verified successfully!".toList,
                 Call.unbanChatMember (-1001) 7,
                 Call.deleteMessage (-1001) 40] },
          deadline := Routine.finished, response := Routine.finished } := by
  decide

set_option maxRecDepth 8000 in
/-- C17 (the code at a failing sequence of events): member 5,000,000 joins and is
challenged with message 40; the wrong answer `captcha_6` removes the member and
the entry; the member joins again and is challenged with message 41; then the
deadline of the first challenge fires.  It finds the entry of the second
challenge, kicks and unbans the member, deletes message 40 and removes the
entry. -/
theorem stale_deadline_acts_on_new_entry :
    (onNewChatMembers "-1001".toList (fun k => if k = 1 then some 40 else some 0)
        (fun _ => { nowCheck := 1700000000000, nowStore := 1700000000500, r1 := 2, r2 := 4,
                    r3 := 0, decoys := [10, 8, 9, 11], cmps := fun _ => false })
        []
        { chatId := -1001,
          new_chat_members :=
            [{ id := 5000000, is_bot := false, first_name := some "Ann".toList,
               last_name := none, username := some "cleanuser123".toList }] }).map
      (fun st => (st.pendingUsers, st.timers))
      = some
          ([(5000000, { correctAnswer := 8, messageId := 40, joinTime := 1700000000500,
                        username := some "cleanuser123".toList })],
           [{ chatId := -1001,
              user := { id := 5000000, is_bot := false, first_name := some "Ann".toList,
                        last_name := none, username := some "cleanuser123".toList },
              messageId := 40, delay := 120000 }]) ∧
    onCallbackQuery "-1001".toList (fun _ => some 0)
      [(5000000, { correctAnswer := 8, messageId := 40, joinTime := 1700000000500,
                   username := some "cleanuser123".toList })]
      { id := "q1".toList, chatId := -1001,
        sender := { id := 5000000, is_bot := false, first_name := some "Ann".toList,
                    last_name := none, username := some "cleanuser123".toList },
        data := "captcha_6".toList }
      = ([],
         [Call.kickChatMember (-1001) 5000000, Call.unbanChatMember (-1001) 5000000,
          Call.deleteMessage (-1001) 40,
          Call.answerCallbackQuery "q1".toList
            "❌ Wrong answer! You have been removed.".toList]) ∧
    (onNewChatMembers "-1001".toList (fun k => if k = 1 then some 41 else some 0)
        (fun _ => { nowCheck := 1700000060000, nowStore := 1700000060500, r1 := 2, r2 := 4,
                    r3 := 0, decoys := [10, 8, 9, 11], cmps := fun _ => false })
        []
        { chatId := -1001,
          new_chat_members :=
            [{ id := 5000000, is_bot := false, first_name := some "Ann".toList,
               last_name := none, username := some "cleanuser123".toList }] }).map
      (fun st => st.pendingUsers)
      = some
          [(5000000, { correctAnswer := 8, messageId := 41, joinTime := 1700000060500,
                       username := some "cleanuser123".toList })] ∧
    onDeadline (fun _ => some 0)
      [(5000000, { correctAnswer := 8, messageId := 41, joinTime := 1700000060500,
                   username := some "cleanuser123".toList })]
      { chatId := -1001,
        user := { id := 5000000, is_bot := false, first_name := some "Ann".toList,
                  last_name := none, username := some "cleanuser123".toList },
        messageId := 40, delay := 120000 }
      = ([],
         [Call.kickChatMember (-1001) 5000000, Call.unbanChatMember (-1001) 5000000,
          Call.deleteMessage (-1001) 40]) := by
  refine ⟨by decide, by decide, by decide, by decide⟩

end Bot
